import Mathlib

/-!
Verification development for the dispatch-iq field-service dispatch optimizer.

This file gives a shallow embedding, in Lean 4, of the parts of the program
that the checked properties are about:

* `src/optimize_dispatches.py` — the greedy assignment engine
  (`DispatchOptimizer`): `Assignment.overlaps_with`, `check_availability`,
  `calculate_score`, `assign_dispatch` with its 0–6 fallback ladder,
  `run_optimization`, `try_pairwise_swaps`, `try_reassignments`.
* `src/dispatch_agent.py` — the learned skill-compatibility table
  (`skill_compatibility_dict`, `calculate_skill_match_score`) and the
  adaptive policy (`intelligent_auto_select`).
* `src/dispatch_agent_fully_ml.py` — the fully-ML assigner
  (`get_available_techs`, the ML cascading fallback, `assign_technician_ml`).

Modelling conventions:

* Python floats are modelled as `ℚ`.  Division in `ℚ` is total with
  `x / 0 = 0`; wherever the source can divide by zero the theorems carry a
  positivity hypothesis instead.
* Date-times are whole minutes (`ℤ`); a calendar date is the floor-division
  of a minute timestamp by 1440 and a time of day its remainder, matching
  the `.date()` / `.time()` projections used by the source.
* The trained ML models (`success_model`, `duration_model`, the hybrid rule
  blend) and the haversine great-circle distance are run-time data, not
  program text; they enter the embedding as explicit function parameters
  (`Models`, `MLConfig`).  No claim below depends on their values.
* The warning strings produced by `check_availability` / `assign_dispatch`
  are modelled by the inductive type `W`, one constructor per distinct
  format string of the source; the substring tests the source performs on
  `str(warnings)` are modelled by Boolean functions on `W` that hold exactly
  for the constructors whose rendered text contains the searched substring
  (documented at each function).
-/

/-! ## Part 1: `src/optimize_dispatches.py` — data model -/

/-- Calendar date (day number) of a minute timestamp, as `datetime.date()`. -/
def dateOf (t : Int) : Int := Int.fdiv t 1440

/-- Time of day in minutes of a minute timestamp, as `datetime.time()`. -/
def timeOf (t : Int) : Int := t - 1440 * dateOf t

/-- Warnings emitted by `check_availability` and `assign_dispatch`
(`src/optimize_dispatches.py`).  Each constructor stands for one format
string of the source; payloads keep the data interpolated into the text. -/
inductive W where
  /-- Text "Technician not available on this date (HARD CONSTRAINT)" -/
  | notAvailableHard : W
  /-- Text "Start before shift (t1 < t2)" -/
  | startBeforeShift : W
  /-- Text "End after shift (t1 > t2)" -/
  | endAfterShift : W
  /-- Text "Time conflict with dispatch N" -/
  | timeConflict (dispatchId : Nat) : W
  /-- Text "Already N concurrent appointments" -/
  | concurrentAppts (n : Nat) : W
  /-- Text "Total scheduled (Xmin) exceeds shift (Ymin)" -/
  | totalExceedsShift : W
  /-- Text "Workload would exceed 100% (Low/Normal priority blocked)" -/
  | workloadExceed100LowNormal : W
  /-- Text "Workload would exceed 120%" -/
  | workloadExceed120 : W
  /-- Text "Workload would be X% (>100%)" -/
  | workloadOver100 : W
  /-- Text "FALLBACK: Allowing 3 concurrent appointments" -/
  | fbConcurrent : W
  /-- Text "FALLBACK: Allowing overtime" -/
  | fbOvertime : W
  /-- Text "FALLBACK: Allowing 110% workload" -/
  | fbWorkload110 : W
  /-- Text "FALLBACK: Forced assignment (all soft constraints relaxed)" -/
  | fbForced : W
deriving DecidableEq, Repr

/-- Source test `"concurrent appointments" in str(warnings)` (level-3 gate):
true exactly for the warnings whose rendered text contains the substring
"concurrent appointments". -/
def W.hasConcurrentApptsText : W → Bool
  | W.concurrentAppts _ => true
  | W.fbConcurrent => true
  | _ => false

/-- Source test `"concurrent" in w.lower()` (level-3 filter): true exactly
for the warnings whose lower-cased text contains "concurrent". -/
def W.hasConcurrentLower : W → Bool
  | W.concurrentAppts _ => true
  | W.fbConcurrent => true
  | _ => false

/-- Source tests `"after shift" in str(warnings)` and
`"after shift" in w.lower()` (level-4 gate and filter): true exactly for
the warnings whose text contains "after shift". -/
def W.hasAfterShiftText : W → Bool
  | W.endAfterShift => true
  | _ => false

/-- Source test `"110%" in str(warnings)` (level-5 gate): true exactly for
the warnings whose rendered text contains the substring "110%".  The
percentage interpolations `f"{x:.1%}"` always print one decimal digit
("110.0%"), so only the literal "FALLBACK: Allowing 110% workload" text
contains "110%". -/
def W.has110pctText : W → Bool
  | W.fbWorkload110 => true
  | _ => false

/-- A pending dispatch row, as consumed by `DispatchOptimizer`
(columns of `load_dispatches`).  The customer coordinates are not stored
here: they only feed the haversine distance, which the embedding abstracts
into `Models.dist`. -/
structure Dispatch where
  dispatch_id : Nat
  ticket_type : String
  order_type : String
  priority : String
  required_skill : String
  /-- Source `appointment_start_datetime`, in whole minutes. -/
  startMin : Int
  /-- Source `appointment_end_datetime`, in whole minutes. -/
  endMin : Int
  expected_duration : ℚ
  state : String
  city : Option String
deriving DecidableEq, Repr

/-- A technician row (columns of `load_technicians`); coordinates abstracted
into `Models.dist` as for `Dispatch`. -/
structure Technician where
  technician_id : String
  technician_name : String
  technician_skill : String
  workload_capacity : ℚ
  state : String
  city : Option String
deriving DecidableEq, Repr

/-- A calendar row (columns of `load_calendar`).  `load_calendar` only
returns rows with `Available = 1`; the field is kept so the invariant can
be stated. -/
structure CalendarEntry where
  technician_id : String
  date : Int
  available : Nat
  /-- Source `start_time`, minutes of day. -/
  start_time : Int
  /-- Source `end_time`, minutes of day. -/
  end_time : Int
  max_assignments : Nat
deriving DecidableEq, Repr

/-- The `Assignment` dataclass of `src/optimize_dispatches.py`. -/
structure Assignment where
  dispatch_id : Nat
  technician_id : String
  startMin : Int
  endMin : Int
  success_probability : ℚ
  estimated_duration : ℚ
  distance : ℚ
  skill_match : Nat
  priority : String
  score : ℚ
  warnings : List W
deriving DecidableEq, Repr

/-- Source `Assignment.overlaps_with` exactly as written in the source: it computes
`end_with_buffer` for both assignments but the returned condition only adds
the buffer to `other`'s end; `self.end_datetime` is compared to
`other.start_datetime` without the buffer. -/
def Assignment.overlaps_with (self other : Assignment) (buffer_minutes : Int) : Bool :=
  let other_end_with_buffer := other.endMin + buffer_minutes
  decide (self.startMin < other_end_with_buffer) && decide (self.endMin > other.startMin)

/-- The overlap test as the specification states it: buffered on both sides
(`a.start < b.end + buffer` and `a.end + buffer > b.start`).  Used only to
compare against the source's `Assignment.overlaps_with`. -/
def overlapsSpec (a b : Assignment) (buffer_minutes : Int) : Bool :=
  decide (a.startMin < b.endMin + buffer_minutes) &&
  decide (a.endMin + buffer_minutes > b.startMin)

/-- The per-technician assignment lists `self.assignments[tech_id]`.  The
engine only ever appends an assignment to the list of its own technician,
so the lists are the by-technician grouping of the assignment table. -/
def techAssignments (st : List Assignment) (tech_id : String) : List Assignment :=
  st.filter (fun a => a.technician_id == tech_id)

/-- Source `PRIORITY_ORDER`; priorities outside the table map to pandas `NaN`,
which `sort_values` places last — modelled as rank 4. -/
def PRIORITY_ORDER (p : String) : Nat :=
  if p == "Critical" then 0
  else if p == "High" then 1
  else if p == "Normal" then 2
  else if p == "Low" then 3
  else 4

/-! ## Part 1 (continued): the optimizer's functions -/

/-- The trained run-time data of `DispatchOptimizer`: the haversine distance
between a dispatch's customer and a technician (a pure function of their
coordinates), and the blended success/duration predictions of
`batch_predict` (functions of the feature row; the two varying numeric
features besides the pair itself are the computed distance and the
workload share `current_assignments / workload_capacity`). -/
structure Models where
  dist : Dispatch → Technician → ℚ
  success : Dispatch → Technician → ℚ → ℚ → ℚ
  dur : Dispatch → Technician → ℚ → ℚ → ℚ

/-- Per-technician record produced by `batch_predict`. -/
structure PredRow where
  success_prob : ℚ
  est_duration : ℚ
  distance : ℚ
  skill_match : Nat
  overrun : ℚ
deriving DecidableEq, Repr

/-- One technician's entry of `batch_predict`: distance, exact-skill flag,
workload share from the current assignment lists, model predictions, and
`overrun = est_duration - expected_duration`. -/
def batchPredictOne (m : Models) (st : List Assignment) (dispatch : Dispatch)
    (tech : Technician) : PredRow :=
  let distance := m.dist dispatch tech
  let skill_match : Nat := if dispatch.required_skill == tech.technician_skill then 1 else 0
  let current_assignments := (techAssignments st tech.technician_id).length
  let workload_share : ℚ :=
    if tech.workload_capacity > 0 then (current_assignments : ℚ) / tech.workload_capacity else 0
  let success_prob := m.success dispatch tech distance workload_share
  let est_duration := m.dur dispatch tech distance workload_share
  ⟨success_prob, est_duration, distance, skill_match, est_duration - dispatch.expected_duration⟩

/-- Source `DispatchOptimizer.check_availability`.  Returns
`(is_available, warnings, calendar_entry, has_calendar_entry)`.  The
calendar passed in holds only `Available = 1` rows (filtered by
`load_calendar`), so a missing row is the hard unavailability case. -/
def check_availability (st : List Assignment) (dispatch : Dispatch) (tech_id : String)
    (calendar : List CalendarEntry) (buffer_minutes : Int) :
    Bool × List W × Option CalendarEntry × Bool :=
  let dispatch_date := dateOf dispatch.startMin
  let entries := calendar.filter fun c => c.technician_id == tech_id && c.date == dispatch_date
  match entries with
  | [] => (false, [W.notAvailableHard], none, false)
  | e :: _ =>
    let dispatch_start_time := timeOf dispatch.startMin
    let dispatch_end_time := timeOf dispatch.endMin
    let w1 : List W := if dispatch_start_time < e.start_time then [W.startBeforeShift] else []
    let w2 : List W := if dispatch_end_time > e.end_time then [W.endAfterShift] else []
    let tech_assignments := techAssignments st tech_id
    let probe : Assignment :=
      ⟨dispatch.dispatch_id, tech_id, dispatch.startMin, dispatch.endMin, 0, 0, 0, 0,
        dispatch.priority, 0, []⟩
    let w3 : List W :=
      (tech_assignments.filter fun a => a.overlaps_with probe buffer_minutes).map
        fun a => W.timeConflict a.dispatch_id
    let concurrent_count :=
      (tech_assignments.filter fun a =>
        decide (dispatch.startMin < a.endMin) && decide (dispatch.endMin > a.startMin)).length
    let w4 : List W := if concurrent_count ≥ 2 then [W.concurrentAppts concurrent_count] else []
    let shift_duration_minutes := e.end_time - e.start_time
    let total_scheduled :=
      (tech_assignments.filter fun a => dateOf a.startMin == dispatch_date).foldl
        (fun s a => s + (a.endMin - a.startMin)) 0
    let dispatch_duration := dispatch.endMin - dispatch.startMin
    let w5 : List W :=
      if total_scheduled + dispatch_duration > shift_duration_minutes
      then [W.totalExceedsShift] else []
    let warnings := w1 ++ w2 ++ w3 ++ w4 ++ w5
    (warnings.isEmpty, warnings, some e, true)

/-- Source `DispatchOptimizer.calculate_score`: weighted success (50) + workload
(35, with a −50 overload penalty) + distance (10) + overrun (5). -/
def calculate_score (success_prob workload_share distance overrun
    max_distance max_overrun : ℚ) : ℚ :=
  let success_score := success_prob * 50
  let workload_score : ℚ :=
    if workload_share ≤ 8/10 then 35
    else if workload_share ≤ 1 then 35 * (1 - (workload_share - 8/10) / (2/10))
    else -50
  let distance_score : ℚ :=
    if max_distance > 0 then (1 - distance / max_distance) * 10 else 10
  let overrun_score : ℚ :=
    if max_overrun > 0 ∧ overrun ≥ 0 then (1 - min (overrun / max_overrun) 1) * 5
    else if overrun ≤ 0 then 5 else 0
  success_score + workload_score + distance_score + overrun_score

/-- One candidate row of the `options` list built by `assign_dispatch`. -/
structure CandidateOption where
  technician_id : String
  technician_name : String
  success_prob : ℚ
  estimated_duration : ℚ
  distance : ℚ
  skill_match : Nat
  workload_share : ℚ
  overrun : ℚ
  warnings : List W
  is_clean : Bool
  score : ℚ
deriving DecidableEq, Repr

/-- The workload check of the candidate loop of `assign_dispatch`: Low and
Normal priorities are blocked above 100%, everyone above 120%; between 100%
and 120% a warning is recorded.  Returns `(workload_ok, warnings)`. -/
def workloadCheck (priority : String) (warnings : List W) (future_workload : ℚ) :
    Bool × List W :=
  if (priority == "Low" || priority == "Normal") && decide (future_workload > 1) then
    (false, warnings ++ [W.workloadExceed100LowNormal])
  else if future_workload > 6/5 then (false, warnings ++ [W.workloadExceed120])
  else if future_workload > 1 then (true, warnings ++ [W.workloadOver100])
  else (true, warnings)

/-- Level-3 relaxation of `assign_dispatch`: when the candidate was
rejected and warnings mention "concurrent appointments", clear the
concurrent warnings and allow 3 concurrent appointments.  The state `p` is
`(can_assign, warnings)`. -/
def relaxL3 (fallback_level : Nat) (p : Bool × List W) : Bool × List W :=
  bif !p.1 && decide (fallback_level ≥ 3) && p.2.any W.hasConcurrentApptsText then
    (true, (p.2.filter fun w => !w.hasConcurrentLower) ++ [W.fbConcurrent])
  else p

/-- Level-4 relaxation: when still rejected and warnings mention
"after shift", clear those warnings and allow overtime. -/
def relaxL4 (fallback_level : Nat) (p : Bool × List W) : Bool × List W :=
  bif !p.1 && decide (fallback_level ≥ 4) && p.2.any W.hasAfterShiftText then
    (true, (p.2.filter fun w => !w.hasAfterShiftText) ++ [W.fbOvertime])
  else p

/-- Level-5 relaxation: when still rejected, no "110%" text is present and
the future workload is at most 110%, allow the overload. -/
def relaxL5 (fallback_level : Nat) (future_workload : ℚ) (p : Bool × List W) :
    Bool × List W :=
  bif !p.1 && decide (fallback_level ≥ 5) && !(p.2.any W.has110pctText)
      && decide (future_workload ≤ 11/10) then
    (true, p.2 ++ [W.fbWorkload110])
  else p

/-- Level-6 relaxation: forced assignment, relaxing all soft constraints
(calendar availability was enforced before the chain and is never
relaxed). -/
def relaxL6 (fallback_level : Nat) (p : Bool × List W) : Bool × List W :=
  bif !p.1 && decide (fallback_level ≥ 6) then (true, p.2 ++ [W.fbForced]) else p

/-- The four fallback relaxations of the candidate loop of
`assign_dispatch` (levels 3–6), applied in order to `(can_assign,
warnings)`. -/
def relaxChain (fallback_level : Nat) (can_assign : Bool) (warnings : List W)
    (future_workload : ℚ) : Bool × List W :=
  relaxL6 fallback_level
    (relaxL5 fallback_level future_workload
      (relaxL4 fallback_level (relaxL3 fallback_level (can_assign, warnings))))

/-- The body of the candidate loop of `assign_dispatch` for one technician:
availability check, the hard calendar skip, the workload checks, and the
four fallback relaxations; returns the option row (with score still 0)
or `none` when the technician is skipped or cannot be assigned. -/
def evalTech (m : Models) (st : List Assignment) (dispatch : Dispatch)
    (calendar : List CalendarEntry) (buffer_minutes : Int) (fallback_level : Nat)
    (tech : Technician) : Option CandidateOption :=
  let pred := batchPredictOne m st dispatch tech
  let res := check_availability st dispatch tech.technician_id calendar buffer_minutes
  let is_available := res.1
  let warnings := res.2.1
  let has_calendar_entry := res.2.2.2
  -- HARD CONSTRAINT: no calendar entry (Available = 0 or missing) skips the
  -- technician at every fallback level.
  if !has_calendar_entry then none
  else
    let current_assignments := (techAssignments st tech.technician_id).length
    -- future workload; the source divides floats with no zero-guard here
    let future_workload : ℚ := ((current_assignments : ℚ) + 1) / tech.workload_capacity
    let wk := workloadCheck dispatch.priority warnings future_workload
    let r := relaxChain fallback_level (is_available && wk.1) wk.2 future_workload
    if r.1 || decide (fallback_level ≥ 6) then
      some ⟨tech.technician_id, tech.technician_name, pred.success_prob, pred.est_duration,
        pred.distance, pred.skill_match, future_workload, pred.overrun, r.2,
        r.2.isEmpty, 0⟩
    else none

/-- Python `max` over a nonempty list (the source only calls it on the
nonempty `options`); returns 0 on `[]`. -/
def maxQ : List ℚ → ℚ
  | [] => 0
  | x :: xs => xs.foldl max x

/-- Strict "greater" on the sort key `(is_clean, score)` used by
`options.sort(key=lambda x: (x.is_clean, x.score), reverse=True)`. -/
def optKeyGT (a b : CandidateOption) : Bool :=
  (a.is_clean && !b.is_clean) || (a.is_clean == b.is_clean && decide (a.score > b.score))

/-- First element of the reverse-sorted options: Python's sort is stable, so
`options[0]` after the reverse sort is the earliest option whose key
`(is_clean, score)` is maximal — the fold that replaces the accumulator
only on a strictly greater key. -/
def pickBest : CandidateOption → List CandidateOption → CandidateOption
  | best, [] => best
  | best, o :: rest => pickBest (if optKeyGT o best then o else best) rest

/-- Scoring step of `assign_dispatch`: each option's score is computed by
`calculate_score` with the candidate-set maxima of distance and positive
overrun. -/
def scoreOptions (options : List CandidateOption) : List CandidateOption :=
  let max_distance := maxQ (options.map fun x => x.distance)
  let max_overrun := maxQ (options.map fun x => max 0 x.overrun)
  options.map fun x =>
    { x with score := (calculate_score x.success_prob x.workload_share x.distance
        x.overrun max_distance max_overrun) }

/-- Scoring and selection tail of `assign_dispatch`: builds `options` from
the candidate technicians, returns `none` when no option qualifies
(the caller then escalates), otherwise scores all options and returns the
`Assignment` made from the best. -/
def finishAssign (m : Models) (st : List Assignment) (dispatch : Dispatch)
    (calendar : List CalendarEntry) (buffer_minutes : Int) (fallback_level : Nat)
    (candidate_techs : List Technician) : Option Assignment :=
  let options := candidate_techs.filterMap
    (evalTech m st dispatch calendar buffer_minutes fallback_level)
  match scoreOptions options with
  | [] => none
  | s0 :: srest =>
    let best := pickBest s0 srest
    some ⟨dispatch.dispatch_id, best.technician_id, dispatch.startMin, dispatch.endMin,
      best.success_prob, best.estimated_duration, best.distance, best.skill_match,
      dispatch.priority, best.score, best.warnings⟩

/-- Outcome of the candidate pre-filtering steps of `assign_dispatch`:
give up (`fail`), escalate to the next fallback level (`escalate`), or
evaluate the given candidate technicians (`proceed`). -/
inductive PreFilterResult where
  | fail : PreFilterResult
  | escalate : PreFilterResult
  | proceed (candidate_techs : List Technician) : PreFilterResult
deriving DecidableEq, Repr

/-- The smart state filter of `assign_dispatch`: same-state technicians,
falling back to all technicians when the state has none (the level-6 guard
that gives up instead is in `preFilter`). -/
def state_filtered (techs : List Technician) (dispatch : Dispatch) : List Technician :=
  let s0 := techs.filter fun t => t.state == dispatch.state
  if s0.isEmpty then techs else s0

/-- The same-city preference filter of `assign_dispatch` (empty when the
dispatch has no city). -/
def city_filtered (techs : List Technician) (dispatch : Dispatch) : List Technician :=
  match dispatch.city with
  | some c => (state_filtered techs dispatch).filter fun t => t.city == some c
  | none => []

/-- Calendar rows on the dispatch date belonging to same-city candidates. -/
def availableCalCity (techs : List Technician) (calendar : List CalendarEntry)
    (dispatch : Dispatch) : List CalendarEntry :=
  if !(city_filtered techs dispatch).isEmpty then
    calendar.filter fun e => e.date == dateOf dispatch.startMin
      && (city_filtered techs dispatch).any fun t => t.technician_id == e.technician_id
  else []

/-- Calendar rows on the dispatch date belonging to same-state candidates. -/
def availableCalState (techs : List Technician) (calendar : List CalendarEntry)
    (dispatch : Dispatch) : List CalendarEntry :=
  calendar.filter fun e => e.date == dateOf dispatch.startMin
    && (state_filtered techs dispatch).any fun t => t.technician_id == e.technician_id

/-- The candidate pool of `assign_dispatch`: same-city technicians with a
calendar row when any exist, otherwise same-state technicians with a
calendar row; `none` (escalate) when nobody has a calendar row below level
6; at level 6 the whole state filter result is used (the per-candidate
hard calendar check still skips every technician without a row). -/
def candidatePool (techs : List Technician) (calendar : List CalendarEntry)
    (dispatch : Dispatch) (fallback_level : Nat) : Option (List Technician) :=
  if !(availableCalCity techs calendar dispatch).isEmpty then
    some ((city_filtered techs dispatch).filter fun t =>
      (availableCalCity techs calendar dispatch).any fun e =>
        e.technician_id == t.technician_id)
  else if (availableCalState techs calendar dispatch).isEmpty
      && decide (fallback_level < 6) then none
  else if !(availableCalState techs calendar dispatch).isEmpty then
    some ((state_filtered techs dispatch).filter fun t =>
      (availableCalState techs calendar dispatch).any fun e =>
        e.technician_id == t.technician_id)
  else some (state_filtered techs dispatch)

/-- The pre-filter steps of `assign_dispatch` (smart city/state filtering
and the calendar-availability pre-filter): give up at level 6 when the
state has no technician, escalate when the pool says so or is empty below
level 6, otherwise proceed with the pool. -/
def preFilter (techs : List Technician) (calendar : List CalendarEntry)
    (dispatch : Dispatch) (fallback_level : Nat) : PreFilterResult :=
  if (techs.filter fun t => t.state == dispatch.state).isEmpty
      && decide (fallback_level ≥ 6) then .fail
  else
    match candidatePool techs calendar dispatch fallback_level with
    | none => .escalate
    | some candidate_techs =>
      if candidate_techs.isEmpty then
        if fallback_level < 6 then .escalate else .fail
      else .proceed candidate_techs

/-- Source `DispatchOptimizer.assign_dispatch`, recursion on the fallback
ladder made structural on a fuel argument (`assign_dispatch` enters at fuel
7, level 0; every recursive call of the source increments the level and
only occurs when the level is below 6, so fuel never runs out from the
top).  The overlap buffer is 30 minutes at level 0, 15 at level 1 and 0
from level 2 on. -/
def assignDispatchAux (m : Models) (techs : List Technician)
    (calendar : List CalendarEntry) (st : List Assignment) (dispatch : Dispatch) :
    Nat → Nat → Option Assignment
  | 0, _ => none
  | fuel + 1, fallback_level =>
    let buffer_minutes : Int :=
      if fallback_level == 0 then 30 else if fallback_level == 1 then 15 else 0
    match preFilter techs calendar dispatch fallback_level with
    | .fail => none
    | .escalate => assignDispatchAux m techs calendar st dispatch fuel (fallback_level + 1)
    | .proceed candidate_techs =>
      match finishAssign m st dispatch calendar buffer_minutes fallback_level
          candidate_techs with
      | some a => some a
      | none =>
        if fallback_level < 6 then
          assignDispatchAux m techs calendar st dispatch fuel (fallback_level + 1)
        else none

/-- Source `assign_dispatch(dispatch, technicians, calendar)` with the default
`fallback_level = 0`. -/
def assign_dispatch (m : Models) (techs : List Technician)
    (calendar : List CalendarEntry) (st : List Assignment) (dispatch : Dispatch) :
    Option Assignment :=
  assignDispatchAux m techs calendar st dispatch 7 0

/-- Stable insertion into a sorted list: `a` goes before the first element
`b` with `le a b` false.  With a total preorder key this reproduces the
stable sorts of pandas (`np.lexsort`) and Python (`sorted`). -/
def insertStable {α : Type} (le : α → α → Bool) (a : α) : List α → List α
  | [] => [a]
  | b :: l => if le a b then a :: b :: l else b :: insertStable le a l

/-- Stable insertion sort (elements equal under the key keep their original
relative order, because `le` holds on equal keys). -/
def sortStable {α : Type} (le : α → α → Bool) : List α → List α
  | [] => []
  | a :: l => insertStable le a (sortStable le l)

/-- Sort key of `run_optimization`:
`dispatches.sort_values(['priority_order', 'appointment_start_datetime'])`. -/
def dispatchSortLE (a b : Dispatch) : Bool :=
  decide (PRIORITY_ORDER a.priority < PRIORITY_ORDER b.priority) ||
  (PRIORITY_ORDER a.priority == PRIORITY_ORDER b.priority && decide (a.startMin ≤ b.startMin))

/-- Source `DispatchOptimizer.run_optimization`: assign each dispatch in priority /
start-time order, appending each produced assignment to its technician's
list and to the assignment map (here: the single assignment table that the
per-technician lists `techAssignments` are derived from). -/
def run_optimization (m : Models) (techs : List Technician)
    (calendar : List CalendarEntry) (dispatches : List Dispatch) : List Assignment :=
  (sortStable dispatchSortLE dispatches).foldl
    (fun st dispatch =>
      match assign_dispatch m techs calendar st dispatch with
      | some a => st ++ [a]
      | none => st)
    []

/-- One sampled iteration of `try_pairwise_swaps`: look both dispatches up,
skip the pair when they share a technician, compute the current combined
score — and then, per the source's own comment ("This is simplified …
For now, we'll skip this to save time"), do nothing: no swap is evaluated,
no state is changed, and `improvements` is never incremented. -/
def swapSampleStep (st : List Assignment) (improvements : Nat) (p : Nat × Nat) : Nat :=
  match st.find? (fun a => a.dispatch_id == p.1),
        st.find? (fun a => a.dispatch_id == p.2) with
  | some assign1, some assign2 =>
    if assign1.technician_id == assign2.technician_id then improvements
    else
      let _current_score := assign1.score + assign2.score
      improvements
  | _, _ => improvements

/-- Source `DispatchOptimizer.try_pairwise_swaps`; the random pair sample is passed
in explicitly (the source draws up to `min(5000, 10·n)` pairs with
`random.sample` from the assignment map's keys).  Returns the (unchanged)
assignment table and the improvement count. -/
def try_pairwise_swaps (st : List Assignment) (sampled_pairs : List (Nat × Nat)) :
    List Assignment × Nat :=
  (st, sampled_pairs.foldl (swapSampleStep st) 0)

/-- One iteration of `try_reassignments` for a sampled dispatch id: remove
its assignment from the table and the per-technician lists, rerun
`assign_dispatch` at fallback level 0, keep the new assignment only on a
strict improvement `new.score > current.score + 5`, otherwise restore the
original. -/
def reassignStep (m : Models) (techs : List Technician) (calendar : List CalendarEntry)
    (dispatches : List Dispatch) (acc : List Assignment × Nat) (dispatch_id : Nat) :
    List Assignment × Nat :=
  let st := acc.1
  let improvements := acc.2
  match st.find? (fun a => a.dispatch_id == dispatch_id),
        dispatches.find? (fun d => d.dispatch_id == dispatch_id) with
  | some current_assign, some dispatch =>
    let st' := st.filter fun a => !(a.dispatch_id == dispatch_id)
    match assign_dispatch m techs calendar st' dispatch with
    | some new_assign =>
      if new_assign.score > current_assign.score + 5 then
        (st' ++ [new_assign], improvements + 1)
      else (st' ++ [current_assign], improvements)
    | none => (st' ++ [current_assign], improvements)
  | _, _ => (st, improvements)

/-- The deterministically sampled part of `try_reassignments`: the
assignments with warnings or score below 70. -/
def problemIds (st : List Assignment) : List Nat :=
  (st.filter fun a => !a.warnings.isEmpty || decide (a.score < 70)).map
    fun a => a.dispatch_id

/-- Source `DispatchOptimizer.try_reassignments`: processes the problem assignments
plus a random 100-sample of the clean ones (the random part is passed in as
`extra_sample`).  Each dispatch id occurs at most once in the processed
list, so looking the current assignment up in the evolving table agrees
with the source's captured `(dispatch_id, assignment)` pairs. -/
def try_reassignments (m : Models) (techs : List Technician)
    (calendar : List CalendarEntry) (dispatches : List Dispatch)
    (st : List Assignment) (extra_sample : List Nat) : List Assignment × Nat :=
  (problemIds st ++ extra_sample).foldl (reassignStep m techs calendar dispatches) (st, 0)

/-! ## Part 2: `src/dispatch_agent.py` — learned skill compatibility -/

/-- One row of the merged history (`history_with_techs`): the dispatch's
required skill, the assigned technician's primary skill at the time, and
the realized outcome `Productive_dispatch ∈ {0,1}`. -/
structure HistRow where
  required_skill : String
  tech_skill : String
  productive : Bool
deriving DecidableEq, Repr

/-- Source `total_count` of the `(Required_skill, Primary_skill)` group. -/
def totalCount (hist : List HistRow) (req tech : String) : Nat :=
  (hist.filter fun h => h.required_skill == req && h.tech_skill == tech).length

/-- Source `success_count` of the group (sum of the 0/1 outcome). -/
def successCount (hist : List HistRow) (req tech : String) : Nat :=
  (hist.filter fun h => h.required_skill == req && h.tech_skill == tech && h.productive).length

/-- Source `success_rate`: group mean of the outcome. -/
def successRate (hist : List HistRow) (req tech : String) : ℚ :=
  (successCount hist req tech : ℚ) / (totalCount hist req tech : ℚ)

/-- Deduplication keeping first occurrences, for the distinct keys of a
pandas `groupby` / the insertion order of a Python dict (fuel makes the
recursion structural; the list's length is always enough fuel). -/
def dedupFirstAux {α : Type} [BEq α] : Nat → List α → List α
  | 0, _ => []
  | _, [] => []
  | fuel + 1, a :: rest => a :: dedupFirstAux fuel (rest.filter fun x => !(x == a))

/-- Distinct elements of a list, first occurrences kept, in order. -/
def dedupFirst {α : Type} [BEq α] (l : List α) : List α :=
  dedupFirstAux l.length l

/-- The keys of `skill_compatibility_dict`: the distinct
`(required_skill, tech_skill)` pairs occurring in the history. -/
def histPairs (hist : List HistRow) : List (String × String) :=
  dedupFirst (hist.map fun h => (h.required_skill, h.tech_skill))

/-- Source `np.clip(x, lo, hi)`. -/
def np_clip (x lo hi : ℚ) : ℚ := min (max x lo) hi

/-- Source `baseline_success_rate`: mean success rate of the exact-match pairs, or
0.5 when there are none. -/
def baseline_success_rate (hist : List HistRow) : ℚ :=
  let exact_matches := (histPairs hist).filter fun p => p.1 == p.2
  if exact_matches.isEmpty then 1/2
  else (exact_matches.foldl (fun s p => s + successRate hist p.1 p.2) 0)
    / (exact_matches.length : ℚ)

/-- The `score` stored in `skill_compatibility_dict` for a pair: exact
matches always 1.0; non-exact pairs with ffewer than 3 samples 0.3;
otherwise `clip(0.3 + 0.7·rate/baseline, 0.1, 0.95)` (0.5 before the clip
when the baseline is not positive).  A grouped pair always has at least one
sample, so the `isna(success_rate)` guard of the source cannot fire. -/
def pairScore (hist : List HistRow) (req tech : String) : ℚ :=
  if totalCount hist req tech < 3 then
    if req == tech then 1 else 3/10
  else
    if req == tech then 1
    else
      let normalized_score : ℚ :=
        if baseline_success_rate hist > 0 then
          3/10 + 7/10 * (successRate hist req tech / baseline_success_rate hist)
        else 1/2
      np_clip normalized_score (1/10) (19/20)

/-- Scores of all learned non-exact pairs (for the unknown-pair default of
`calculate_skill_match_score`). -/
def nonExactScores (hist : List HistRow) : List ℚ :=
  ((histPairs hist).filter fun p => !(p.1 == p.2)).map fun p => pairScore hist p.1 p.2

/-- Source `calculate_skill_match_score(required_skill, tech_skill)`: missing
inputs → 0.3; exact match → 1.0; then the learned table in both key
orders; otherwise the mean of the learned non-exact scores (0.4 when the
table has none) clipped to [0.2, 0.6]. -/
def calculate_skill_match_score (hist : List HistRow)
    (required_skill tech_skill : Option String) : ℚ :=
  match required_skill, tech_skill with
  | some req, some tech =>
    if req == tech then 1
    else if (histPairs hist).contains (req, tech) then pairScore hist req tech
    else if (histPairs hist).contains (tech, req) then pairScore hist tech req
    else
      let ne := nonExactScores hist
      let default_score : ℚ :=
        if !ne.isEmpty then (ne.foldl (fun s x => s + x) 0) / (ne.length : ℚ) else 2/5
      np_clip default_score (1/5) (3/5)
  | _, _ => 3/10

/-! ## Part 2 (continued): the adaptive policy `intelligent_auto_select` -/

/-- A `(min_success_threshold, max_capacity_ratio)` pair from one of the
threshold tables (`SEASONAL_CONFIGS`, `DEMAND_THRESHOLDS`,
`AVAILABILITY_THRESHOLDS`). -/
structure PolicyConfig where
  min_success_threshold : ℚ
  max_capacity : ℚ
deriving DecidableEq, Repr

def DEMAND_HIGH_CFG : PolicyConfig := ⟨1/4, 6/5⟩
def DEMAND_NORMAL_CFG : PolicyConfig := ⟨27/100, 28/25⟩
def DEMAND_LOW_CFG : PolicyConfig := ⟨3/10, 11/10⟩
def AVAIL_HIGH_CFG : PolicyConfig := ⟨7/20, 1⟩
def AVAIL_NORMAL_CFG : PolicyConfig := ⟨27/100, 28/25⟩
def AVAIL_LOW_CFG : PolicyConfig := ⟨1/5, 6/5⟩
def SEASON_PEAK_CFG : PolicyConfig := ⟨1/4, 23/20⟩
def SEASON_NORMAL_CFG : PolicyConfig := ⟨27/100, 28/25⟩
def SEASON_LOW_CFG : PolicyConfig := ⟨3/10, 11/10⟩
def SEASON_MORNING_CFG : PolicyConfig := ⟨3/10, 11/10⟩
def SEASON_AFTERNOON_CFG : PolicyConfig := ⟨27/100, 28/25⟩
def SEASON_EVENING_CFG : PolicyConfig := ⟨1/4, 23/20⟩

/-- One scored factor of `intelligent_auto_select`
(demand / availability / time). -/
structure Factor where
  name : String
  score : Nat
  config : Option PolicyConfig
  season : Option String
deriving DecidableEq, Repr

/-- Demand factor: ratio against the configured baseline of 500; high
(>1.5×) scores 10, low (<0.8×) scores 8, normal scores 2; no dispatch
count gives no config.  (`enable_demand_override` is true in the shipped
`INTELLIGENT_AUTO_CONFIG`.) -/
def demandFactor (dispatch_count : Option Nat) : Factor :=
  match dispatch_count with
  | none => ⟨"demand", 0, none, none⟩
  | some dc =>
    let demand_level : ℚ := (dc : ℚ) / 500
    if demand_level > 3/2 then
      ⟨"demand", 10, some DEMAND_HIGH_CFG, some ("high_demand")⟩
    else if demand_level < 4/5 then
      ⟨"demand", 8, some DEMAND_LOW_CFG, some ("low_demand")⟩
    else
      ⟨"demand", 2, some DEMAND_NORMAL_CFG, some ("normal_demand")⟩

/-- Availability factor: more than 50 available technicians scores 9
(be selective); fewer than 20 scores 10 (emergency, be permissive);
otherwise 2. -/
def availabilityFactor (available_tech_count : Option Nat) : Factor :=
  match available_tech_count with
  | none => ⟨"availability", 0, none, none⟩
  | some atc =>
    if atc > 50 then
      ⟨"availability", 9, some AVAIL_HIGH_CFG, some ("high_availability")⟩
    else if atc < 20 then
      ⟨"availability", 10, some AVAIL_LOW_CFG, some ("low_availability")⟩
    else
      ⟨"availability", 2, some AVAIL_NORMAL_CFG, some ("normal_availability")⟩

/-- Time factor: hour buckets morning 6–11, afternoon 12–16, evening 17–21
(score 5); otherwise month buckets peak {11,12}, low {1,2}, normal 3–10
(score 4); otherwise the normal default (score 1). -/
def timeFactor (hour month : Nat) : Factor :=
  if 6 ≤ hour ∧ hour < 12 then ⟨"time", 5, some SEASON_MORNING_CFG, some ("morning")⟩
  else if 12 ≤ hour ∧ hour < 17 then
    ⟨"time", 5, some SEASON_AFTERNOON_CFG, some ("afternoon")⟩
  else if 17 ≤ hour ∧ hour < 22 then
    ⟨"time", 5, some SEASON_EVENING_CFG, some ("evening")⟩
  else if month = 11 ∨ month = 12 then ⟨"time", 4, some SEASON_PEAK_CFG, some ("peak")⟩
  else if month = 1 ∨ month = 2 then ⟨"time", 4, some SEASON_LOW_CFG, some ("low")⟩
  else if 3 ≤ month ∧ month ≤ 10 then ⟨"time", 4, some SEASON_NORMAL_CFG, some ("normal")⟩
  else ⟨"time", 1, some SEASON_NORMAL_CFG, some ("normal")⟩

/-- Descending stable ordering on factor scores, for
`sorted(factors, key=lambda x: x[1], reverse=True)`. -/
def factorGE (a b : Factor) : Bool := decide (a.score ≥ b.score)

/-- Source `intelligent_auto_select(dispatch_count, available_tech_count, now)`:
score the three factors, sort by score descending (stably), take the first
factor with a config and score above 5; otherwise walk the configured
priority order demand → availability → time and take the first factor with
a config (the time factor always has one). -/
def intelligent_auto_select (dispatch_count available_tech_count : Option Nat)
    (hour month : Nat) : Factor :=
  let fd := demandFactor dispatch_count
  let fa := availabilityFactor available_tech_count
  let ft := timeFactor hour month
  let factors_sorted := sortStable factorGE [fd, fa, ft]
  match factors_sorted.find? (fun f => f.config.isSome && decide (f.score > 5)) with
  | some f => f
  | none =>
    if fd.config.isSome then fd
    else if fa.config.isSome then fa
    else ft

/-! ## Part 3: `src/dispatch_agent_fully_ml.py` — the fully-ML assigner -/

/-- A technician row of the fully-ML agent (`technicians_10k.csv` after
cleaning).  `hasCoords` records whether both Latitude and Longitude are
present (not NaN); the coordinates themselves only feed `haversine`, which
the embedding abstracts into `MLConfig.hav`. -/
structure MLTech where
  tid : String
  primary_skill : String
  city : Option String
  hasCoords : Bool
  current_assignments : ℚ
  workload_capacity : Option ℚ
deriving DecidableEq, Repr

/-- A calendar row of the fully-ML agent (`Available` kept as loaded; this
path filters `Available == 1` itself). -/
structure MLCalEntry where
  tid : String
  date : Int
  available : Int
deriving DecidableEq, Repr

/-- The dispatch-row fields read by `assign_technician_ml`.  `custCoords`
records whether both customer coordinates are present; the remaining
feature fields (first-time-fix, service tier, equipment) only feed
`predict_duration` and are folded into `MLConfig.predictDur`. -/
structure MLDispatch where
  date : Option Int
  required_skill : Option String
  city : Option String
  custCoords : Bool
deriving DecidableEq, Repr

/-- Run-time data of the fully-ML agent: the learned thresholds
(`ML_CITY_STRICT`, `ML_CAPACITY_LIMIT`; `None` behaves as Python-falsy),
the haversine distance to a given technician (defined when all four
coordinates are present), the trained success/confidence predictors
(functions of distance and workload share), the duration predictor as a
function of the distance argument, the history-median default distance,
and the exponential-decay distance score `exp(-d/8.5)` (a transcendental
the claims do not depend on, abstracted as a function). -/
structure MLConfig where
  cityStrict : Bool
  capacityLimit : Option ℚ
  hav : MLTech → ℚ
  mlSuccess : MLTech → ℚ → ℚ → ℚ
  mlConf : MLTech → ℚ → ℚ → ℚ
  distScore : ℚ → ℚ
  predictDur : ℚ → ℚ
  defaultDistance : ℚ

/-- Python truthiness of `ML_CAPACITY_LIMIT` (`None` and `0.0` are falsy). -/
def capLimitActive : Option ℚ → Bool
  | none => false
  | some l => !(l == 0)

/-- Source `get_available_techs(dispatch_date, required_skill, city)`: skill
prefilter, the strict calendar rule (`Available == 1` on the date), the
ML-driven city rule, and the ML-driven capacity rule. -/
def get_available_techs (techs : List MLTech) (calendar : List MLCalEntry)
    (cfg : MLConfig) (dispatch_date : Option Int) (required_skill : Option String)
    (city : Option String) : List MLTech :=
  match required_skill with
  | none => []
  | some skill =>
    let ts := techs.filter fun t => t.primary_skill == skill
    if ts.isEmpty then ts
    else
      match dispatch_date with
      | none => []
      | some dd =>
        let available_on_date := calendar.filter fun e => e.date == dd && e.available == 1
        if available_on_date.isEmpty then []
        else
          let ts := ts.filter fun t => available_on_date.any fun e => e.tid == t.tid
          let ts : List MLTech :=
            match city with
            | some c =>
              if cfg.cityStrict then
                ts.filter fun t =>
                  match t.city with
                  | some tc => tc.toLower == c.toLower
                  | none => false
              else ts
            | none => if cfg.cityStrict then [] else ts
          let ts := ts.filter fun t =>
            match t.workload_capacity with
            | some cap => decide (cap > 0)
            | none => false
          if capLimitActive cfg.capacityLimit then
            ts.filter fun t =>
              match t.workload_capacity with
              | some cap => decide (t.current_assignments / cap < cfg.capacityLimit.getD 0)
              | none => false
          else
            ts.filter fun t =>
              match t.workload_capacity with
              | some cap => decide (t.current_assignments < cap)
              | none => false

/-- Level 2 of the ML cascading fallback: walk all distinct primary skills
and return the first nonempty candidate set. -/
def level2Search (techs : List MLTech) (calendar : List MLCalEntry) (cfg : MLConfig)
    (dispatch_date : Option Int) (city : Option String) :
    List String → List MLTech × String × ℚ
  | [] => ([], "no_match", 0)
  | skill :: rest =>
    let candidates := get_available_techs techs calendar cfg dispatch_date (some skill) city
    if !candidates.isEmpty then (candidates, "level_2_ml", 85/100)
    else level2Search techs calendar cfg dispatch_date city rest

/-- Source `get_available_techs_with_cascading_fallback_ml`: exact skill first
(confidence multiplier 1.0), then any available skill (0.85), else no
match. -/
def cascadingFallbackML (techs : List MLTech) (calendar : List MLCalEntry)
    (cfg : MLConfig) (dispatch_date : Option Int) (required_skill : Option String)
    (city : Option String) : List MLTech × String × ℚ :=
  let level1 := get_available_techs techs calendar cfg dispatch_date required_skill city
  if !level1.isEmpty then (level1, "level_1_ml", 1)
  else
    let all_skills := dedupFirst (techs.map fun t => t.primary_skill)
    level2Search techs calendar cfg dispatch_date city all_skills

/-- The `MAX_ACCEPTABLE_DISTANCE` constant of `assign_technician_ml`
(in km): the relaxed distance filter's hard cap. -/
def MAX_ACCEPTABLE_DISTANCE : ℚ := 200

/-- The result tuple of `assign_technician_ml` (the source rounds
confidence, success, duration and distance for display; the rounding is
omitted here). -/
structure MLResult where
  tech_id : Option String
  confidence : ℚ
  success_prob : ℚ
  predicted_duration : ℚ
  fallback_level : String
  workload_share : ℚ
  distance : ℚ
deriving DecidableEq, Repr

/-- Source `candidates['distance_km']` for one candidate: NaN (modelled `none`)
when the customer's or the technician's coordinates are missing, otherwise
the haversine distance. -/
def mlDistanceOf (cfg : MLConfig) (d : MLDispatch) (t : MLTech) : Option ℚ :=
  if d.custCoords && t.hasCoords then some (cfg.hav t) else none

/-- Source `candidates['workload_ratio']` for one candidate (`fillna(1.0)`; the
capacity is present and positive for every cascade survivor). -/
def mlWorkloadOf (t : MLTech) : ℚ :=
  match t.workload_capacity with
  | some cap => t.current_assignments / cap
  | none => 1

/-- Source `candidates['final_score']`: 60% ML success probability, 30% distance
score `exp(-d/8.5)`, 10% workload score `1 - workload`. -/
def mlFinalScore (cfg : MLConfig) (_d : MLDispatch) (t : MLTech) (dist : ℚ) : ℚ :=
  let workload := mlWorkloadOf t
  let success_prob := cfg.mlSuccess t dist workload
  let distance_score := cfg.distScore dist
  let workload_score := 1 - workload
  6/10 * success_prob + 3/10 * distance_score + 1/10 * workload_score

/-- First maximiser of a rational-valued key in a list: the element
`sort_values(..., ascending=False).iloc[0]` selects.  (In `ℚ` no score is
NaN, so the all-NaN fallback sort of the source is unreachable.) -/
def argmaxFirst {α : Type} (key : α → ℚ) : α → List α → α
  | best, [] => best
  | best, x :: rest => argmaxFirst key (if key x > key best then x else best) rest

/-- Normalisation base `max_dist` of `assign_technician_ml`: the maximum
distance among the filtered candidates (their distances are all present),
replaced by 1 when not positive. -/
def mlMaxDist (cfg : MLConfig) (d : MLDispatch) (filtered : List MLTech) : ℚ :=
  let m0 := maxQ (filtered.map fun t => (mlDistanceOf cfg d t).getD 0)
  if m0 > 0 then m0 else 1

/-- A candidate's distance with the NaN fallback to `max_dist` used by the
scoring lambdas of `assign_technician_ml`. -/
def mlDistOrMax (cfg : MLConfig) (d : MLDispatch) (filtered : List MLTech)
    (t : MLTech) : ℚ :=
  (mlDistanceOf cfg d t).getD (mlMaxDist cfg d filtered)

/-- The candidate `sort_values('final_score', ascending=False).iloc[0]`
selects: the first maximiser of the final score. -/
def mlBest (cfg : MLConfig) (d : MLDispatch) (f0 : MLTech) (frest : List MLTech) :
    MLTech :=
  argmaxFirst (fun t => mlFinalScore cfg d t (mlDistOrMax cfg d (f0 :: frest) t))
    f0 frest

/-- Source `assign_technician_ml(dispatch_row)`: ML cascading candidate
selection, the distance computation with NaN for missing coordinates, the
relaxed distance filter at `MAX_ACCEPTABLE_DISTANCE` (a NaN distance never
passes `<= 200`), scoring, choice of the best candidate, and the workload
increment on the chosen technician.  Returns the result tuple and the
updated technician table. -/
def assign_technician_ml (techs : List MLTech) (calendar : List MLCalEntry)
    (cfg : MLConfig) (d : MLDispatch) : MLResult × List MLTech :=
  let r := cascadingFallbackML techs calendar cfg d.date d.required_skill d.city
  let candidates := r.1
  let fallback_level := r.2.1
  let base_confidence_multiplier := r.2.2
  match candidates with
  | [] =>
    (⟨none, 0, 0, cfg.predictDur cfg.defaultDistance, "no_match", 0, 0⟩, techs)
  | c0 :: crest =>
    let filtered := (c0 :: crest).filter fun t =>
      match mlDistanceOf cfg d t with
      | some dk => decide (dk ≤ MAX_ACCEPTABLE_DISTANCE)
      | none => false
    match filtered with
    | [] =>
      (⟨none, 0, 0, cfg.predictDur cfg.defaultDistance, "no_match_distance", 0, 0⟩, techs)
    | f0 :: frest =>
      let best := mlBest cfg d f0 frest
      let best_distance := mlDistOrMax cfg d (f0 :: frest) best
      let best_workload := mlWorkloadOf best
      let conf := np_clip (cfg.mlConf best best_distance best_workload
        * base_confidence_multiplier) 0 1
      let success := np_clip (cfg.mlSuccess best best_distance best_workload) 0 1
      let predicted_duration := cfg.predictDur best_distance
      let techs' := techs.map fun t =>
        if t.tid == best.tid then { t with current_assignments := t.current_assignments + 1 }
        else t
      (⟨some best.tid, conf, success, predicted_duration, fallback_level,
          best_workload, best_distance⟩, techs')

/-! ## General lemmas about the embedded functions -/

/-- Best-option selection never leaves the option list. -/
theorem pickBest_mem (o : CandidateOption) (l : List CandidateOption) :
    pickBest o l ∈ o :: l := by
  induction l generalizing o with
  | nil => simp [pickBest]
  | cons x rest ih =>
    simp only [pickBest]
    rcases List.mem_cons.mp (ih (if optKeyGT x o then x else o)) with h1 | h1
    · rw [h1]
      by_cases hx : optKeyGT x o = true <;> simp [hx]
    · exact List.mem_cons_of_mem _ (List.mem_cons_of_mem _ h1)

/-- Argmax selection never leaves the candidate list. -/
theorem argmaxFirst_mem {α : Type} (key : α → ℚ) (x : α) (l : List α) :
    argmaxFirst key x l ∈ x :: l := by
  induction l generalizing x with
  | nil => simp [argmaxFirst]
  | cons y rest ih =>
    simp only [argmaxFirst]
    rcases List.mem_cons.mp (ih (if key y > key x then y else x)) with h1 | h1
    · rw [h1]
      by_cases hy : key y > key x
      · simp [hy]
      · simp [hy]
    · exact List.mem_cons_of_mem _ (List.mem_cons_of_mem _ h1)

/-- When `check_availability` reports a calendar entry, the calendar really
has a row for this technician on the dispatch's date. -/
theorem check_availability_entry (st : List Assignment) (d : Dispatch) (tid : String)
    (cal : List CalendarEntry) (buf : Int)
    (h : (check_availability st d tid cal buf).2.2.2 = true) :
    ∃ e ∈ cal, e.technician_id = tid ∧ e.date = dateOf d.startMin := by
  simp only [check_availability] at h
  rcases hf : cal.filter (fun c => c.technician_id == tid && c.date == dateOf d.startMin)
    with _ | ⟨e, rest⟩
  · rw [hf] at h
    simp at h
  · have he : e ∈ cal.filter
        (fun c => c.technician_id == tid && c.date == dateOf d.startMin) := by
      rw [hf]; exact .head _
    have hmem := List.mem_filter.mp he
    have hcond := hmem.2
    simp only [Bool.and_eq_true, beq_iff_eq] at hcond
    exact ⟨e, hmem.1, hcond.1, hcond.2⟩

/-- Above 120% future workload the workload check always fails (both the
Low/Normal branch and the general 120% branch reject). -/
theorem workloadCheck_over120 (p : String) (ws : List W) (fw : ℚ) (hfw : fw > 6/5) :
    (workloadCheck p ws fw).1 = false := by
  unfold workloadCheck
  have h1 : fw > 1 := lt_trans (by norm_num) hfw
  by_cases hp : (p == "Low" || p == "Normal") = true
  · simp only [hp, Bool.true_and, decide_eq_true h1, if_true]
  · simp only [Bool.not_eq_true] at hp
    simp [hp, hfw]

/-- Case split for the level-3 relaxation. -/
theorem relaxL3_cases (lvl : Nat) (p : Bool × List W) :
    relaxL3 lvl p = p ∨
    relaxL3 lvl p = (true, (p.2.filter fun w => !w.hasConcurrentLower) ++ [W.fbConcurrent]) := by
  unfold relaxL3
  cases hc : (!p.1 && decide (lvl ≥ 3) && p.2.any W.hasConcurrentApptsText)
  · exact Or.inl rfl
  · exact Or.inr rfl

/-- Case split for the level-4 relaxation. -/
theorem relaxL4_cases (lvl : Nat) (p : Bool × List W) :
    relaxL4 lvl p = p ∨
    relaxL4 lvl p = (true, (p.2.filter fun w => !w.hasAfterShiftText) ++ [W.fbOvertime]) := by
  unfold relaxL4
  cases hc : (!p.1 && decide (lvl ≥ 4) && p.2.any W.hasAfterShiftText)
  · exact Or.inl rfl
  · exact Or.inr rfl

/-- Case split for the level-6 relaxation. -/
theorem relaxL6_cases (lvl : Nat) (p : Bool × List W) :
    relaxL6 lvl p = p ∨ relaxL6 lvl p = (true, p.2 ++ [W.fbForced]) := by
  unfold relaxL6
  cases hc : (!p.1 && decide (lvl ≥ 6))
  · exact Or.inl rfl
  · exact Or.inr rfl

/-- An accepted candidate passes later relaxations unchanged. -/
theorem relaxL4_of_true (lvl : Nat) (p : Bool × List W) (h : p.1 = true) :
    relaxL4 lvl p = p := by
  unfold relaxL4
  rw [h]
  rfl

/-- An accepted candidate passes the level-5 relaxation unchanged. -/
theorem relaxL5_of_true (lvl : Nat) (fw : ℚ) (p : Bool × List W) (h : p.1 = true) :
    relaxL5 lvl fw p = p := by
  unfold relaxL5
  rw [h]
  rfl

/-- Above 110% future workload the level-5 relaxation never fires. -/
theorem relaxL5_of_over110 (lvl : Nat) (fw : ℚ) (p : Bool × List W)
    (hfw : ¬ fw ≤ 11/10) : relaxL5 lvl fw p = p := by
  unfold relaxL5
  rw [decide_eq_false hfw]
  simp

/-- An accepted candidate passes the level-6 relaxation unchanged. -/
theorem relaxL6_of_true (lvl : Nat) (p : Bool × List W) (h : p.1 = true) :
    relaxL6 lvl p = p := by
  unfold relaxL6
  rw [h]
  rfl

/-- When the relax chain accepts a candidate the workload check rejected
and the future workload is above 110%, one of the three fallback markers
that can fire there is in the final warnings — the 110% relaxation itself
requires the workload to be at most 110%. -/
theorem relaxChain_accept_over110 (lvl : Nat) (ws : List W) (fw : ℚ)
    (hfw : ¬ fw ≤ 11/10)
    (h : (relaxChain lvl false ws fw).1 = true) :
    ∃ w ∈ (relaxChain lvl false ws fw).2,
      w = W.fbConcurrent ∨ w = W.fbOvertime ∨ w = W.fbForced := by
  unfold relaxChain at h ⊢
  rcases relaxL3_cases lvl (false, ws) with h3 | h3
  · rw [h3] at h ⊢
    rcases relaxL4_cases lvl (false, ws) with h4 | h4
    · rw [h4, relaxL5_of_over110 lvl fw _ hfw] at h ⊢
      rcases relaxL6_cases lvl (false, ws) with h6 | h6
      · rw [h6] at h
        simp at h
      · rw [h6] at h ⊢
        exact ⟨W.fbForced, by simp, Or.inr (Or.inr rfl)⟩
    · rw [h4] at h ⊢
      rw [relaxL5_of_true lvl fw _ rfl, relaxL6_of_true lvl _ rfl] at h ⊢
      exact ⟨W.fbOvertime, by simp, Or.inr (Or.inl rfl)⟩
  · rw [h3] at h ⊢
    rw [relaxL4_of_true lvl _ rfl, relaxL5_of_true lvl fw _ rfl,
      relaxL6_of_true lvl _ rfl] at h ⊢
    exact ⟨W.fbConcurrent, by simp, Or.inl rfl⟩

/-- A level-6 call always has the relax chain force acceptance. -/
theorem relaxL6_true_of_ge6 (lvl : Nat) (p : Bool × List W)
    (h6 : decide (lvl ≥ 6) = true) : (relaxL6 lvl p).1 = true := by
  unfold relaxL6
  rw [h6]
  cases hp : p.1
  · rfl
  · exact hp

/-- What a produced candidate option of the loop body says about its
technician: it carries the technician's id, the technician has a calendar
row (the hard constraint held), the recorded workload share is
`(current + 1) / capacity`, and a workload share above 120% is only
possible with one of the fallback markers concurrent / overtime / forced
among the warnings. -/
theorem evalTech_some_props (m : Models) (st : List Assignment) (d : Dispatch)
    (cal : List CalendarEntry) (buf : Int) (lvl : Nat) (t : Technician)
    (o : CandidateOption) (h : evalTech m st d cal buf lvl t = some o) :
    o.technician_id = t.technician_id ∧
    (check_availability st d t.technician_id cal buf).2.2.2 = true ∧
    o.workload_share =
      (((techAssignments st t.technician_id).length : ℚ) + 1) / t.workload_capacity ∧
    (¬ o.workload_share ≤ 6/5 →
      ∃ w ∈ o.warnings, w = W.fbConcurrent ∨ w = W.fbOvertime ∨ w = W.fbForced) := by
  simp only [evalTech] at h
  by_cases hcal : (check_availability st d t.technician_id cal buf).2.2.2 = true
  · rw [hcal] at h
    simp only [Bool.not_true] at h
    rw [if_neg (by simp)] at h
    split at h
    next hcond =>
      have ho := Option.some.inj h
      subst ho
      refine ⟨rfl, hcal, rfl, ?_⟩
      intro hstrict
      have hgt : (((techAssignments st t.technician_id).length : ℚ) + 1)
          / t.workload_capacity > 6/5 := lt_of_not_le hstrict
      have hwk := workloadCheck_over120 d.priority
        (check_availability st d t.technician_id cal buf).2.1
        ((((techAssignments st t.technician_id).length : ℚ) + 1) / t.workload_capacity) hgt
      rw [hwk, Bool.and_false] at hcond ⊢
      have hfw : ¬ (((techAssignments st t.technician_id).length : ℚ) + 1)
          / t.workload_capacity ≤ 11/10 := fun hle => hstrict (le_trans hle (by norm_num))
      rcases (Bool.or_eq_true _ _).mp hcond with hr1 | h6
      · exact relaxChain_accept_over110 _ _ _ hfw hr1
      · refine relaxChain_accept_over110 _ _ _ hfw ?_
        unfold relaxChain
        exact relaxL6_true_of_ge6 lvl _ h6
    next =>
      simp at h
  · rw [Bool.not_eq_true] at hcal
    rw [hcal] at h
    simp at h

/-- Scored options keep the identity fields of the underlying options. -/
theorem scoreOptions_fields (ops : List CandidateOption) (y : CandidateOption)
    (hy : y ∈ scoreOptions ops) :
    ∃ x ∈ ops, y.technician_id = x.technician_id ∧ y.warnings = x.warnings ∧
      y.workload_share = x.workload_share := by
  simp only [scoreOptions] at hy
  rcases List.mem_map.mp hy with ⟨x, hx, hyx⟩
  exact ⟨x, hx, by rw [← hyx], by rw [← hyx], by rw [← hyx]⟩

/-- The candidate option list of `finishAssign` yields an assignment whose
technician, warnings and workload data come from one evaluated candidate. -/
theorem finishAssign_some (m : Models) (st : List Assignment) (d : Dispatch)
    (cal : List CalendarEntry) (buf : Int) (lvl : Nat) (cts : List Technician)
    (a : Assignment) (h : finishAssign m st d cal buf lvl cts = some a) :
    ∃ t ∈ cts, ∃ o, evalTech m st d cal buf lvl t = some o ∧
      a.technician_id = o.technician_id ∧ a.warnings = o.warnings := by
  simp only [finishAssign] at h
  rcases hops : scoreOptions (cts.filterMap (evalTech m st d cal buf lvl))
    with _ | ⟨s0, srest⟩
  · rw [hops] at h
    simp at h
  · rw [hops] at h
    have ha : _ = a := Option.some.inj h
    subst ha
    have hmem : pickBest s0 srest ∈ scoreOptions
        (cts.filterMap (evalTech m st d cal buf lvl)) := by
      rw [hops]
      exact pickBest_mem s0 srest
    rcases scoreOptions_fields _ _ hmem with ⟨x, hx, hid, hw, _⟩
    rcases List.mem_filterMap.mp hx with ⟨t, ht, hev⟩
    exact ⟨t, ht, x, hev, hid, hw⟩

/-- Members of the state filter are technicians of the input table. -/
theorem state_filtered_subset (techs : List Technician) (d : Dispatch)
    (t : Technician) (ht : t ∈ state_filtered techs d) : t ∈ techs := by
  simp only [state_filtered] at ht
  split at ht
  · exact ht
  · exact (List.mem_filter.mp ht).1

/-- Members of the city filter are technicians of the input table. -/
theorem city_filtered_subset (techs : List Technician) (d : Dispatch)
    (t : Technician) (ht : t ∈ city_filtered techs d) : t ∈ techs := by
  simp only [city_filtered] at ht
  split at ht
  · exact state_filtered_subset techs d t (List.mem_filter.mp ht).1
  · exact absurd ht (by simp)

/-- Members of the candidate pool are technicians of the input table. -/
theorem candidatePool_subset (techs : List Technician) (cal : List CalendarEntry)
    (d : Dispatch) (lvl : Nat) (cts : List Technician)
    (h : candidatePool techs cal d lvl = some cts) : ∀ t ∈ cts, t ∈ techs := by
  simp only [candidatePool] at h
  split at h
  · have hq := Option.some.inj h
    intro t ht
    rw [← hq] at ht
    exact city_filtered_subset techs d t (List.mem_filter.mp ht).1
  · split at h
    · exact absurd h (by simp)
    · split at h
      · have hq := Option.some.inj h
        intro t ht
        rw [← hq] at ht
        exact state_filtered_subset techs d t (List.mem_filter.mp ht).1
      · have hq := Option.some.inj h
        intro t ht
        rw [← hq] at ht
        exact state_filtered_subset techs d t ht

/-- Candidate technicians produced by the pre-filter are technicians of
the input table. -/
theorem preFilter_proceed_subset (techs : List Technician)
    (cal : List CalendarEntry) (d : Dispatch) (lvl : Nat) (cts : List Technician)
    (h : preFilter techs cal d lvl = .proceed cts) : ∀ t ∈ cts, t ∈ techs := by
  simp only [preFilter] at h
  split at h
  · exact absurd h (by simp)
  · split at h
    next heq => exact absurd h (by simp)
    next cts' heq =>
      split at h
      · split at h <;> exact absurd h (by simp)
      · have hc : cts' = cts := by injection h
        subst hc
        exact candidatePool_subset techs cal d lvl cts' heq

/-- Main invariants of one `assign_dispatch` call at any fallback level:
the produced assignment's technician has a calendar row on the dispatch
date (the hard constraint), it is a technician of the input table, and a
future workload above 120% of its capacity is only possible with one of
the fallback markers concurrent / overtime / forced among the warnings. -/
theorem assignDispatchAux_props (m : Models) (techs : List Technician)
    (cal : List CalendarEntry) (st : List Assignment) (d : Dispatch)
    (fuel lvl : Nat) (a : Assignment)
    (h : assignDispatchAux m techs cal st d fuel lvl = some a) :
    (∃ e ∈ cal, e.technician_id = a.technician_id ∧ e.date = dateOf d.startMin) ∧
    ∃ t ∈ techs, t.technician_id = a.technician_id ∧
      (¬ (((techAssignments st a.technician_id).length : ℚ) + 1)
          / t.workload_capacity ≤ 6/5 →
        ∃ w ∈ a.warnings, w = W.fbConcurrent ∨ w = W.fbOvertime ∨ w = W.fbForced) := by
  induction fuel generalizing lvl with
  | zero => exact absurd h (by simp [assignDispatchAux])
  | succ fuel ih =>
    simp only [assignDispatchAux] at h
    split at h
    · exact absurd h (by simp)
    · exact ih _ h
    next cts heqp =>
      split at h
      next a' heqf =>
        have ha : a' = a := Option.some.inj h
        subst ha
        rcases finishAssign_some m st d cal _ lvl cts a' heqf with
          ⟨t, htc, o, hev, hid, hwarn⟩
        rcases evalTech_some_props m st d cal _ lvl t o hev with
          ⟨hid2, hcal2, hws, hbypass⟩
        have hid3 : a'.technician_id = t.technician_id := hid.trans hid2
        constructor
        · rcases check_availability_entry st d t.technician_id cal _ hcal2 with
            ⟨e, he, he1, he2⟩
          exact ⟨e, he, by rw [hid3, he1], he2⟩
        · refine ⟨t, preFilter_proceed_subset techs cal d lvl cts heqp t htc, hid3.symm, ?_⟩
          intro hover
          rw [hid3] at hover
          rw [← hws] at hover
          rcases hbypass hover with ⟨w, hwmem, hwis⟩
          exact ⟨w, hwarn ▸ hwmem, hwis⟩
      next heqf =>
        split at h
        · exact ih _ h
        · exact absurd h (by simp)

/-- Per-technician lists distribute over appending to the table. -/
theorem techAssignments_append (st1 st2 : List Assignment) (tid : String) :
    techAssignments (st1 ++ st2) tid =
      techAssignments st1 tid ++ techAssignments st2 tid := by
  simp [techAssignments]

/-- Two technicians of a table with pairwise distinct ids and the same id
are the same row. -/
theorem technician_id_inj (techs : List Technician)
    (hnd : (techs.map fun t => t.technician_id).Nodup)
    (t t' : Technician) (ht : t ∈ techs) (ht' : t' ∈ techs)
    (hid : t.technician_id = t'.technician_id) : t = t' := by
  induction techs with
  | nil => exact absurd ht (by simp)
  | cons x rest ih =>
    rw [List.map_cons, List.nodup_cons] at hnd
    rcases List.mem_cons.mp ht with h1 | h1
    · rcases List.mem_cons.mp ht' with h2 | h2
      · rw [h1, h2]
      · have hmem : t'.technician_id ∈ rest.map fun t => t.technician_id :=
          List.mem_map_of_mem _ h2
        rw [← hid, h1] at hmem
        exact absurd hmem hnd.1
    · rcases List.mem_cons.mp ht' with h2 | h2
      · have hmem : t.technician_id ∈ rest.map fun t => t.technician_id :=
          List.mem_map_of_mem _ h1
        rw [hid, h2] at hmem
        exact absurd hmem hnd.1
      · exact ih hnd.2 h1 h2

/-- Fold invariants propagate along `List.foldl`. -/
theorem foldl_invariant {α β : Type} (P : α → Prop) (f : α → β → α)
    (hstep : ∀ st d, P st → P (f st d)) :
    ∀ (l : List β) (st : α), P st → P (l.foldl f st) := by
  intro l
  induction l with
  | nil => exact fun st h => h
  | cons d rest ih => exact fun st h => ih (f st d) (hstep st d h)

/-- Restoring the removed assignment reproduces the table up to order:
when the table holds exactly one assignment of the dispatch, removing it
and appending it back is a permutation of the original table. -/
theorem filter_restore_perm (st : List Assignment) (dispatch_id : Nat)
    (cur : Assignment)
    (hfilter : st.filter (fun a => a.dispatch_id == dispatch_id) = [cur]) :
    ((st.filter fun a => !(a.dispatch_id == dispatch_id)) ++ [cur]).Perm st := by
  induction st with
  | nil => simp at hfilter
  | cons x rest ih =>
    by_cases hx : (x.dispatch_id == dispatch_id) = true
    · rw [List.filter_cons, if_pos hx] at hfilter
      have hx1 : x = cur := by injection hfilter
      have hx2 : rest.filter (fun a => a.dispatch_id == dispatch_id) = [] := by
        injection hfilter
      have hrest : rest.filter (fun a => !(a.dispatch_id == dispatch_id)) = rest := by
        rw [List.filter_eq_self]
        intro a ha
        have hnp : ¬ ((a.dispatch_id == dispatch_id) = true) := by
          intro hq
          have hmem : a ∈ rest.filter (fun a => a.dispatch_id == dispatch_id) :=
            List.mem_filter.mpr ⟨ha, hq⟩
          rw [hx2] at hmem
          simp at hmem
        simp [hnp]
      rw [List.filter_cons, if_neg (by simp [hx]), hrest, ← hx1]
      exact List.perm_append_singleton x rest
    · rw [List.filter_cons, if_neg hx] at hfilter
      rw [List.filter_cons, if_pos (by simp [hx])]
      rw [List.cons_append]
      exact (ih hfilter).cons x

/-- Claim C2 (amended): the 200 km cap is enforced only by the fully-ML
assigner — every assignment `assign_technician_ml` emits passed the
relaxed distance filter, so its distance is at most
`MAX_ACCEPTABLE_DISTANCE`; the greedy optimizer applies no distance filter
(see the C2 counterexample). -/
theorem assign_technician_ml_distance_le (techs : List MLTech)
    (cal : List MLCalEntry) (cfg : MLConfig) (d : MLDispatch)
    (hsome : (assign_technician_ml techs cal cfg d).1.tech_id.isSome = true) :
    (assign_technician_ml techs cal cfg d).1.distance ≤ MAX_ACCEPTABLE_DISTANCE := by
  simp only [assign_technician_ml] at hsome ⊢
  split at hsome
  · simp at hsome
  next c0 crest heqc =>
    split at hsome
    · simp at hsome
    next f0 frest heqf =>
      have hbest : mlBest cfg d f0 frest ∈ f0 :: frest := argmaxFirst_mem _ f0 frest
      rw [← heqf] at hbest
      have hpred := (List.mem_filter.mp hbest).2
      rcases hmd : mlDistanceOf cfg d (mlBest cfg d f0 frest) with _ | dk
      · rw [hmd] at hpred
        simp at hpred
      · rw [hmd] at hpred
        simp only [decide_eq_true_eq] at hpred
        simp only [mlDistOrMax, hmd, Option.getD_some]
        exact hpred

/-- Claim C10: when the customer's coordinates are missing, every
candidate's distance is the NaN sentinel and the distance filter removes
everyone: the fully-ML assigner returns no technician with reason
"no_match_distance" even when the cascade found eligible candidates. -/
theorem assign_technician_ml_missing_coords (techs : List MLTech)
    (cal : List MLCalEntry) (cfg : MLConfig) (d : MLDispatch)
    (hcust : d.custCoords = false)
    (hcand : (cascadingFallbackML techs cal cfg d.date d.required_skill d.city).1 ≠ []) :
    (assign_technician_ml techs cal cfg d).1.tech_id = none ∧
    (assign_technician_ml techs cal cfg d).1.fallback_level = "no_match_distance" := by
  simp only [assign_technician_ml]
  rcases heqc : (cascadingFallbackML techs cal cfg d.date d.required_skill d.city).1
    with _ | ⟨c0, crest⟩
  · exact absurd heqc hcand
  · have hfilt : (c0 :: crest).filter (fun t =>
        match mlDistanceOf cfg d t with
        | some dk => decide (dk ≤ MAX_ACCEPTABLE_DISTANCE)
        | none => false) = [] := by
      rw [List.filter_eq_nil_iff]
      intro t _
      simp [mlDistanceOf, hcust]
    simp [hfilt]

/-- Group success rates are non-negative. -/
theorem successRate_nonneg (hist : List HistRow) (req tech : String) :
    0 ≤ successRate hist req tech :=
  div_nonneg (Nat.cast_nonneg _) (Nat.cast_nonneg _)

/-- Clipping is monotone. -/
theorem np_clip_mono (x y lo hi : ℚ) (h : x ≤ y) :
    np_clip x lo hi ≤ np_clip y lo hi :=
  min_le_min (max_le_max h le_rfl) le_rfl

/-- A lower bound below both the value and the cap survives clipping. -/
theorem np_clip_ge_of (b x lo hi : ℚ) (h1 : b ≤ x) (h2 : b ≤ hi) :
    b ≤ np_clip x lo hi :=
  le_min (le_trans h1 (le_max_left x lo)) h2

/-- The learned score of a non-exact pair with at least 3 samples. -/
theorem pairScore_nonexact_hi (hist : List HistRow) (req a : String)
    (hcnt : ¬ totalCount hist req a < 3) (hne : req ≠ a) :
    pairScore hist req a =
      np_clip (if baseline_success_rate hist > 0 then
        3/10 + 7/10 * (successRate hist req a / baseline_success_rate hist) else 1/2)
        (1/10) (19/20) := by
  unfold pairScore
  rw [if_neg hcnt, if_neg (by simp [hne])]

/-- The learned score of a non-exact pair with fewer than 3 samples. -/
theorem pairScore_nonexact_lo (hist : List HistRow) (req a : String)
    (hcnt : totalCount hist req a < 3) (hne : req ≠ a) :
    pairScore hist req a = 3/10 := by
  unfold pairScore
  rw [if_pos hcnt, if_neg (by simp [hne])]

/-- The time factor never scores above 5 and always carries a config. -/
theorem timeFactor_facts (hour month : Nat) :
    (timeFactor hour month).score ≤ 5 ∧ (timeFactor hour month).config.isSome = true := by
  unfold timeFactor
  split_ifs <;> simp

/-! ## Claims -/

/-- Concrete assignments for the overlap-test evaluation: 09:00–10:00 and
10:10–11:10 of day 0, in minutes. -/
def c4a : Assignment := ⟨1, "T1", 540, 600, 0, 0, 0, 0, "Normal", 0, []⟩

/-- Second assignment of the overlap pair. -/
def c4b : Assignment := ⟨2, "T1", 610, 670, 0, 0, 0, 0, "Normal", 0, []⟩

/-- Claim C4: the claim states the overlap test is the symmetric buffered
test `a.start < b.end + buf ∧ a.end + buf > b.start`.  The source's
`overlaps_with` omits the buffer on its own end (the computed
`end_with_buffer` for `self` is unused), so at the 30-minute buffer the
pair (09:00–10:00, 10:10–11:10) overlaps under the claimed test but not
under the code's, and the code's test is asymmetric on the same pair. -/
theorem C4_overlap_test_eval :
    c4a.overlaps_with c4b 30 = false ∧ overlapsSpec c4a c4b 30 = true ∧
    c4b.overlaps_with c4a 30 = true := by
  decide

/-- Claim C6: the skill match score of an exact pair `(s, s)` is 1.0
regardless of the recorded history — both as the entry built for a learned
pair (`pairScore`) and at lookup time (`calculate_skill_match_score`,
which also covers pairs absent from the table). -/
theorem C6_exact_skill_score_one (hist : List HistRow) (s : String) :
    calculate_skill_match_score hist (some s) (some s) = 1 ∧ pairScore hist s s = 1 := by
  constructor
  · simp [calculate_skill_match_score]
  · unfold pairScore
    simp

/-- Claim C9: the source's `try_pairwise_swaps` samples pairs, skips pairs
sharing a technician and computes the current combined score, but — per
its own "For now, we'll skip this to save time" comment — never evaluates
or applies a swap: for every assignment table and every sample it returns
the table unchanged with zero improvements. -/
theorem C9_pairwise_swaps_no_op (st : List Assignment)
    (sampled_pairs : List (Nat × Nat)) :
    try_pairwise_swaps st sampled_pairs = (st, 0) := by
  unfold try_pairwise_swaps
  have hstep : ∀ n p, swapSampleStep st n p = n := by
    intro n p
    unfold swapSampleStep
    split
    · split <;> rfl
    · rfl
  have hfold : ∀ (l : List (Nat × Nat)) (n : Nat), l.foldl (swapSampleStep st) n = n := by
    intro l
    induction l with
    | nil => intro n; rfl
    | cons p rest ih =>
      intro n
      rw [List.foldl_cons, hstep]
      exact ih n
  rw [hfold]

/-- Claim C7: with fewer than 20 available technicians and demand neither
high (more than 150% of the 500 baseline) nor low (less than 80%), the
adaptive policy selects the low-availability emergency mode with
`MIN_SUCCESS_THRESHOLD = 0.20` and `MAX_CAPACITY_RATIO = 1.20`, whatever
the hour and month say. -/
theorem C7_low_availability_mode (dc atc hour month : Nat)
    (hlow : atc < 20)
    (hnothigh : ¬ ((dc : ℚ) / 500 > 3/2))
    (hnotlow : ¬ ((dc : ℚ) / 500 < 4/5)) :
    intelligent_auto_select (some dc) (some atc) hour month =
      ⟨"availability", 10, some AVAIL_LOW_CFG, some ("low_availability")⟩ ∧
    AVAIL_LOW_CFG.min_success_threshold = 1/5 ∧
    AVAIL_LOW_CFG.max_capacity = 6/5 := by
  refine ⟨?_, rfl, rfl⟩
  have hfd : demandFactor (some dc) =
      ⟨"demand", 2, some DEMAND_NORMAL_CFG, some ("normal_demand")⟩ := by
    simp only [demandFactor]
    rw [if_neg hnothigh, if_neg hnotlow]
  have hfa : availabilityFactor (some atc) =
      ⟨"availability", 10, some AVAIL_LOW_CFG, some ("low_availability")⟩ := by
    simp only [availabilityFactor]
    rw [if_neg (by omega : ¬ atc > 50), if_pos hlow]
  obtain ⟨hts, _⟩ := timeFactor_facts hour month
  unfold intelligent_auto_select
  rw [hfd, hfa]
  have h1 : factorGE ⟨"availability", 10, some AVAIL_LOW_CFG, some ("low_availability")⟩
      (timeFactor hour month) = true := by
    unfold factorGE
    refine decide_eq_true ?_
    show (timeFactor hour month).score ≤ 10
    omega
  have h2 : factorGE ⟨"demand", 2, some DEMAND_NORMAL_CFG, some ("normal_demand")⟩
      ⟨"availability", 10, some AVAIL_LOW_CFG, some ("low_availability")⟩ = false := by
    unfold factorGE
    decide
  simp [sortStable, insertStable, h1, h2, List.find?]

/-- Witness for C7: 500 dispatches (normal demand), 10 available
technicians, 9 o'clock in May: the emergency low-availability mode is
selected. -/
theorem C7_witness :
    (10 : Nat) < 20 ∧ ¬ ((500 : ℚ) / 500 > 3/2) ∧ ¬ ((500 : ℚ) / 500 < 4/5) ∧
    intelligent_auto_select (some 500) (some 10) 9 5 =
      ⟨"availability", 10, some AVAIL_LOW_CFG, some ("low_availability")⟩ := by
  refine ⟨by norm_num, by norm_num, by norm_num, ?_⟩
  exact (C7_low_availability_mode 500 10 9 5 (by norm_num) (by norm_num)
    (by norm_num)).1

/-- History refuting C5 as stated: the exact pair (A, A) has 1 sample and
scores 1.0; the pair (A, B) has 3 samples with perfect success rate yet
scores only 0.95. -/
def c5hist : List HistRow :=
  [⟨"A", "A", true⟩, ⟨"A", "B", true⟩, ⟨"A", "B", true⟩, ⟨"A", "B", true⟩]

/-- Claim C5, counterexample: a pair with at least 3 samples (and even a
perfect success rate) scores strictly below a pair with fewer than 3
samples for the same required skill, because the cap of 0.95 on learned
non-exact scores is below the unconditional 1.0 of an exact pair. -/
theorem C5_skill_monotonicity_counterexample :
    3 ≤ totalCount c5hist "A" "B" ∧ totalCount c5hist "A" "A" < 3 ∧
    pairScore c5hist "A" "B" < pairScore c5hist "A" "A" := by
  have h1 : pairScore c5hist "A" "A" = 1 := by
    unfold pairScore
    rw [if_pos (by decide), if_pos (by decide)]
  have hb : baseline_success_rate c5hist = 1 := by
    have he : (histPairs c5hist).filter (fun p => p.1 == p.2) = [("A", "A")] := by
      decide
    unfold baseline_success_rate
    rw [he]
    have hr : successRate c5hist "A" "A" = 1 := by
      have hsc : successCount c5hist "A" "A" = 1 := by decide
      have htc : totalCount c5hist "A" "A" = 1 := by decide
      unfold successRate
      rw [hsc, htc]
      norm_num
    simp [hr]
  have hrB : successRate c5hist "A" "B" = 1 := by
    have hsc : successCount c5hist "A" "B" = 3 := by decide
    have htc : totalCount c5hist "A" "B" = 3 := by decide
    unfold successRate
    rw [hsc, htc]
    norm_num
  have h2 : pairScore c5hist "A" "B" = 19/20 := by
    rw [pairScore_nonexact_hi c5hist "A" "B" (by decide) (by decide)]
    rw [hb, hrB]
    norm_num [np_clip]
  refine ⟨by decide, by decide, ?_⟩
  rw [h1, h2]
  norm_num

/-- Claim C5 (amended): restricted to non-exact pairs the monotonicity
holds with ε = 0 — for the same required skill, among non-exact pairs with
at least 3 samples a higher success rate never yields a lower score, and a
non-exact pair with at least 3 samples never scores below a non-exact pair
with fewer than 3 samples (which scores the 0.3 prior). -/
theorem C5_skill_monotonicity_nonexact (hist : List HistRow) (req a b : String)
    (hra : req ≠ a) (hrb : req ≠ b) (hca : 3 ≤ totalCount hist req a) :
    (3 ≤ totalCount hist req b →
      successRate hist req b ≤ successRate hist req a →
      pairScore hist req b ≤ pairScore hist req a) ∧
    (totalCount hist req b < 3 →
      pairScore hist req b ≤ pairScore hist req a) := by
  have hsa := pairScore_nonexact_hi hist req a (by omega) hra
  constructor
  · intro hcb hrate
    have hsb := pairScore_nonexact_hi hist req b (by omega) hrb
    rw [hsa, hsb]
    by_cases hbase : baseline_success_rate hist > 0
    · rw [if_pos hbase, if_pos hbase]
      have hdiv : successRate hist req b / baseline_success_rate hist ≤
          successRate hist req a / baseline_success_rate hist :=
        (div_le_div_iff_of_pos_right hbase).mpr hrate
      have h2 := mul_le_mul_of_nonneg_left hdiv (by norm_num : (0:ℚ) ≤ 7/10)
      exact np_clip_mono _ _ _ _ (by linarith)
    · rw [if_neg hbase, if_neg hbase]
  · intro hcb
    rw [pairScore_nonexact_lo hist req b hcb hrb, hsa]
    by_cases hbase : baseline_success_rate hist > 0
    · rw [if_pos hbase]
      refine np_clip_ge_of _ _ _ _ ?_ (by norm_num)
      have hnn : 0 ≤ successRate hist req a / baseline_success_rate hist :=
        div_nonneg (successRate_nonneg _ _ _) (le_of_lt hbase)
      linarith
    · rw [if_neg hbase]
      refine np_clip_ge_of _ _ _ _ (by norm_num) (by norm_num)

/-- History for the C5 witness: (A, B) has 3 productive samples, (A, C)
has 3 samples of which 2 productive. -/
def c5whist : List HistRow :=
  [⟨"A", "B", true⟩, ⟨"A", "B", true⟩, ⟨"A", "B", true⟩,
   ⟨"A", "C", true⟩, ⟨"A", "C", true⟩, ⟨"A", "C", false⟩]

/-- Witness for the amended C5 at a concrete history. -/
theorem C5_skill_monotonicity_witness :
    3 ≤ totalCount c5whist "A" "B" ∧ 3 ≤ totalCount c5whist "A" "C" ∧
    successRate c5whist "A" "C" ≤ successRate c5whist "A" "B" ∧
    pairScore c5whist "A" "C" ≤ pairScore c5whist "A" "B" := by
  have hrC : successRate c5whist "A" "C" = 2/3 := by
    have hsc : successCount c5whist "A" "C" = 2 := by decide
    have htc : totalCount c5whist "A" "C" = 3 := by decide
    unfold successRate
    rw [hsc, htc]
    norm_num
  have hrB : successRate c5whist "A" "B" = 1 := by
    have hsc : successCount c5whist "A" "B" = 3 := by decide
    have htc : totalCount c5whist "A" "B" = 3 := by decide
    unfold successRate
    rw [hsc, htc]
    norm_num
  have hr : successRate c5whist "A" "C" ≤ successRate c5whist "A" "B" := by
    rw [hrC, hrB]
    norm_num
  exact ⟨by decide, by decide, hr,
    (C5_skill_monotonicity_nonexact c5whist "A" "B" "C" (by decide) (by decide)
      (by decide)).1 (by decide) hr⟩

/-- Claim C1: an assignment emitted by `assign_dispatch` at any fallback
level references a technician with an `available = 1` calendar row on the
dispatch's date; the loaded calendar holds only `available = 1` rows and
the per-candidate hard check is never relaxed. -/
theorem C1_calendar_hard_constraint (m : Models) (techs : List Technician)
    (cal : List CalendarEntry) (st : List Assignment) (d : Dispatch)
    (fuel lvl : Nat) (a : Assignment)
    (hav : ∀ e ∈ cal, e.available = 1)
    (h : assignDispatchAux m techs cal st d fuel lvl = some a) :
    ∃ e ∈ cal, e.technician_id = a.technician_id ∧ e.date = dateOf d.startMin ∧
      e.available = 1 := by
  rcases (assignDispatchAux_props m techs cal st d fuel lvl a h).1 with ⟨e, he, h1, h2⟩
  exact ⟨e, he, h1, h2, hav e he⟩

/-- Models of the gA scenario: distance 500 km for every pair, success
probability one half, predicted duration equals the expected duration. -/
def gA_m : Models := ⟨fun _ _ => 500, fun _ _ _ _ => 1/2, fun d _ _ _ => d.expected_duration⟩

/-- Technician of the gA scenario. -/
def gA_t : Technician := ⟨"T1", "N", "Fiber", 8, "S", some ("C")⟩

/-- Calendar of the gA scenario: T1 available on day 0, 08:00–17:00. -/
def gA_cal : List CalendarEntry := [⟨"T1", 0, 1, 480, 1020, 10⟩]

/-- Dispatch of the gA scenario: 09:00–10:00 on day 0, same state and
city as T1. -/
def gA_d : Dispatch := ⟨1, "t", "o", "Normal", "Fiber", 540, 600, 60, "S", some ("C")⟩

theorem gA_m_dist (d : Dispatch) (t : Technician) : gA_m.dist d t = 500 := rfl
theorem gA_m_success (d : Dispatch) (t : Technician) (x y : ℚ) :
    gA_m.success d t x y = 1/2 := rfl
theorem gA_m_dur (d : Dispatch) (t : Technician) (x y : ℚ) :
    gA_m.dur d t x y = d.expected_duration := rfl
theorem gA_t_id : gA_t.technician_id = "T1" := rfl
theorem gA_t_name : gA_t.technician_name = "N" := rfl
theorem gA_t_skill : gA_t.technician_skill = "Fiber" := rfl
theorem gA_t_cap : gA_t.workload_capacity = 8 := rfl
theorem gA_t_state : gA_t.state = "S" := rfl
theorem gA_t_city : gA_t.city = some ("C") := rfl
theorem gA_d_id : gA_d.dispatch_id = 1 := rfl
theorem gA_d_prio : gA_d.priority = "Normal" := rfl
theorem gA_d_skill : gA_d.required_skill = "Fiber" := rfl
theorem gA_d_start : gA_d.startMin = 540 := rfl
theorem gA_d_end : gA_d.endMin = 600 := rfl
theorem gA_d_dur : gA_d.expected_duration = 60 := rfl
theorem gA_d_state : gA_d.state = "S" := rfl
theorem gA_d_city : gA_d.city = some ("C") := rfl

theorem gA_ca : check_availability [] gA_d "T1"
    [(⟨"T1", 0, 1, 480, 1020, 10⟩ : CalendarEntry)] 30 =
    (true, [], some ⟨"T1", 0, 1, 480, 1020, 10⟩, true) := by
  simp +decide [check_availability, dateOf, timeOf, techAssignments, gA_d_start, gA_d_end]

theorem gA_ev : evalTech gA_m [] gA_d [(⟨"T1", 0, 1, 480, 1020, 10⟩ : CalendarEntry)]
    30 0 gA_t = some ⟨"T1", "N", 1/2, 60, 500, 1, 1/8, 0, [], true, 0⟩ := by
  simp +decide [evalTech, batchPredictOne, techAssignments, gA_t_id, gA_ca,
    workloadCheck, relaxChain, relaxL3, relaxL4, relaxL5, relaxL6,
    gA_m_dist, gA_m_success, gA_m_dur, gA_d_skill, gA_t_skill, gA_t_cap, gA_d_prio,
    gA_d_dur, gA_t_name]
  norm_num

theorem gA_fa : finishAssign gA_m [] gA_d
    [(⟨"T1", 0, 1, 480, 1020, 10⟩ : CalendarEntry)] 30 0 [gA_t] =
    some ⟨1, "T1", 540, 600, 1/2, 60, 500, 1, "Normal", 65, []⟩ := by
  simp +decide [finishAssign, gA_ev, scoreOptions, calculate_score, maxQ, pickBest,
    optKeyGT, gA_d_id, gA_d_start, gA_d_end, gA_d_prio]
  norm_num

theorem gA_eval : assign_dispatch gA_m [gA_t] gA_cal [] gA_d =
    some ⟨1, "T1", 540, 600, 1/2, 60, 500, 1, "Normal", 65, []⟩ := by
  simp +decide [assign_dispatch, assignDispatchAux, preFilter, candidatePool,
    availableCalCity, availableCalState, city_filtered, state_filtered, gA_cal, gA_fa,
    gA_t_state, gA_d_state, gA_t_city, gA_d_city, gA_t_id, dateOf, gA_d_start]

/-- Witness for C1: in the gA scenario the produced assignment's
technician T1 has the (only) `available = 1` calendar row on day 0. -/
theorem C1_calendar_hard_constraint_witness :
    (∀ e ∈ gA_cal, e.available = 1) ∧
    ∃ e ∈ gA_cal, e.technician_id =
        (⟨1, "T1", 540, 600, 1/2, 60, 500, 1, "Normal", 65, []⟩ : Assignment).technician_id ∧
      e.date = dateOf gA_d.startMin ∧ e.available = 1 :=
  ⟨by decide, C1_calendar_hard_constraint gA_m [gA_t] gA_cal [] gA_d 7 0 _
    (by decide) gA_eval⟩

/-- Claim C2, counterexample: the greedy optimizer's `assign_dispatch`
applies no distance filter at any fallback level — in the gA scenario it
assigns a technician 500 km away, far beyond the 200 km cap the claim
states for every emitted assignment. -/
theorem C2_distance_cap_counterexample :
    (assign_dispatch gA_m [gA_t] gA_cal [] gA_d).map Assignment.distance = some 500 ∧
    ¬ ((500 : ℚ) ≤ MAX_ACCEPTABLE_DISTANCE) := by
  constructor
  · rw [gA_eval]
    rfl
  · norm_num [MAX_ACCEPTABLE_DISTANCE]

/-- Technician of the fully-ML witness scenarios. -/
def mlA_t : MLTech := ⟨"T1", "F", some ("X"), true, 0, some 2⟩

/-- Calendar of the fully-ML witness scenarios: T1 available on day 0. -/
def mlA_cal : List MLCalEntry := [⟨"T1", 0, 1⟩]

/-- Configuration of the fully-ML witness scenarios: flexible city rule,
no learned capacity limit, haversine 50 km for every technician. -/
def mlA_cfg : MLConfig :=
  ⟨false, none, fun _ => 50, fun _ _ _ => 1/2, fun _ _ _ => 1/2, fun _ => 0,
    fun _ => 60, 10⟩

/-- Dispatch of the C2 witness: customer coordinates present. -/
def mlA_d : MLDispatch := ⟨some 0, some ("F"), none, true⟩

/-- Dispatch of the C10 witness: customer coordinates missing. -/
def mlB_d : MLDispatch := ⟨some 0, some ("F"), none, false⟩

theorem mlA_t_tid : mlA_t.tid = "T1" := rfl
theorem mlA_t_skill : mlA_t.primary_skill = "F" := rfl
theorem mlA_t_coords : mlA_t.hasCoords = true := rfl
theorem mlA_t_cur : mlA_t.current_assignments = 0 := rfl
theorem mlA_t_cap : mlA_t.workload_capacity = some 2 := rfl
theorem mlA_cfg_strict : mlA_cfg.cityStrict = false := rfl
theorem mlA_cfg_cap : mlA_cfg.capacityLimit = none := rfl
theorem mlA_cfg_hav (t : MLTech) : mlA_cfg.hav t = 50 := rfl
theorem mlA_d_date : mlA_d.date = some 0 := rfl
theorem mlA_d_skill : mlA_d.required_skill = some ("F") := rfl
theorem mlA_d_city : mlA_d.city = none := rfl
theorem mlA_d_coords : mlA_d.custCoords = true := rfl
theorem mlB_d_date : mlB_d.date = some 0 := rfl
theorem mlB_d_skill : mlB_d.required_skill = some ("F") := rfl
theorem mlB_d_city : mlB_d.city = none := rfl

theorem mlA_cascade : cascadingFallbackML [mlA_t] mlA_cal mlA_cfg (some 0)
    (some ("F")) none = ([mlA_t], "level_1_ml", 1) := by
  simp +decide [cascadingFallbackML, get_available_techs, capLimitActive,
    mlA_t_skill, mlA_t_tid, mlA_t_cap, mlA_t_cur, mlA_cfg_strict, mlA_cfg_cap, mlA_cal,
    decide_eq_true (by norm_num : ((2:ℚ) > 0)),
    decide_eq_true (by norm_num : ((0:ℚ) < 2))]

/-- Witness for the amended C2: with coordinates present and a 50 km
haversine the fully-ML assigner emits an assignment, and its distance is
within the 200 km cap. -/
theorem C2_distance_cap_witness :
    ((assign_technician_ml [mlA_t] mlA_cal mlA_cfg mlA_d).1.tech_id).isSome = true ∧
    (assign_technician_ml [mlA_t] mlA_cal mlA_cfg mlA_d).1.distance
      ≤ MAX_ACCEPTABLE_DISTANCE := by
  have hsome :
      ((assign_technician_ml [mlA_t] mlA_cal mlA_cfg mlA_d).1.tech_id).isSome = true := by
    simp only [assign_technician_ml, mlA_d_date, mlA_d_skill, mlA_d_city, mlA_cascade]
    simp +decide [mlDistanceOf, mlA_d_coords, mlA_t_coords, mlA_cfg_hav,
      decide_eq_true (show (50:ℚ) ≤ MAX_ACCEPTABLE_DISTANCE by
        norm_num [MAX_ACCEPTABLE_DISTANCE])]
  exact ⟨hsome, assign_technician_ml_distance_le [mlA_t] mlA_cal mlA_cfg mlA_d hsome⟩

/-- Witness for C10: same eligible technician and calendar, but the
customer's coordinates are missing — the dispatch comes back unassigned
with reason "no_match_distance". -/
theorem C10_missing_coords_witness :
    mlB_d.custCoords = false ∧
    (cascadingFallbackML [mlA_t] mlA_cal mlA_cfg mlB_d.date mlB_d.required_skill
      mlB_d.city).1 ≠ [] ∧
    (assign_technician_ml [mlA_t] mlA_cal mlA_cfg mlB_d).1.tech_id = none ∧
    (assign_technician_ml [mlA_t] mlA_cal mlA_cfg mlB_d).1.fallback_level
      = "no_match_distance" := by
  have hcand : (cascadingFallbackML [mlA_t] mlA_cal mlA_cfg mlB_d.date
      mlB_d.required_skill mlB_d.city).1 ≠ [] := by
    rw [mlB_d_date, mlB_d_skill, mlB_d_city, mlA_cascade]
    simp
  have hc := assign_technician_ml_missing_coords [mlA_t] mlA_cal mlA_cfg mlB_d rfl hcand
  exact ⟨rfl, hcand, hc.1, hc.2⟩

/-- Models of the gC reassignment scenario: zero distance, learned success
probability 0.3, predicted duration equal to the expected duration. -/
def gC_m : Models := ⟨fun _ _ => 0, fun _ _ _ _ => 3/10, fun d _ _ _ => d.expected_duration⟩

/-- Technician of the gC scenario. -/
def gC_t : Technician := ⟨"T2", "N", "F", 2, "S", some ("C")⟩

/-- Calendar of the gC scenario: T2 available on day 0, shift 8:00-17:00. -/
def gC_cal : List CalendarEntry := [⟨"T2", 0, 1, 480, 1020, 10⟩]

/-- Dispatch of the gC scenario. -/
def gC_d : Dispatch := ⟨1, "t", "o", "Normal", "F", 540, 600, 60, "S", some ("C")⟩

/-- The current assignment of dispatch 1 in the gC scenario: score 60
(below 70, so `try_reassignments` samples it), no warnings. -/
def gC_cur : Assignment := ⟨1, "T1", 540, 600, 1/2, 60, 0, 1, "Normal", 60, []⟩

theorem gC_m_dist (d : Dispatch) (t : Technician) : gC_m.dist d t = 0 := rfl
theorem gC_m_success (d : Dispatch) (t : Technician) (x y : ℚ) :
    gC_m.success d t x y = 3/10 := rfl
theorem gC_m_dur (d : Dispatch) (t : Technician) (x y : ℚ) :
    gC_m.dur d t x y = d.expected_duration := rfl
theorem gC_t_id : gC_t.technician_id = "T2" := rfl
theorem gC_t_name : gC_t.technician_name = "N" := rfl
theorem gC_t_skill : gC_t.technician_skill = "F" := rfl
theorem gC_t_cap : gC_t.workload_capacity = 2 := rfl
theorem gC_t_state : gC_t.state = "S" := rfl
theorem gC_t_city : gC_t.city = some ("C") := rfl
theorem gC_d_id : gC_d.dispatch_id = 1 := rfl
theorem gC_d_prio : gC_d.priority = "Normal" := rfl
theorem gC_d_skill : gC_d.required_skill = "F" := rfl
theorem gC_d_start : gC_d.startMin = 540 := rfl
theorem gC_d_end : gC_d.endMin = 600 := rfl
theorem gC_d_dur : gC_d.expected_duration = 60 := rfl
theorem gC_d_state : gC_d.state = "S" := rfl
theorem gC_d_city : gC_d.city = some ("C") := rfl
theorem gC_cur_score : gC_cur.score = 60 := rfl

theorem gC_ca : check_availability [] gC_d "T2"
    [(⟨"T2", 0, 1, 480, 1020, 10⟩ : CalendarEntry)] 30 =
    (true, [], some ⟨"T2", 0, 1, 480, 1020, 10⟩, true) := by
  simp +decide [check_availability, dateOf, timeOf, techAssignments, gC_d_start, gC_d_end]

theorem gC_ev : evalTech gC_m [] gC_d [(⟨"T2", 0, 1, 480, 1020, 10⟩ : CalendarEntry)]
    30 0 gC_t = some ⟨"T2", "N", 3/10, 60, 0, 1, 1/2, 0, [], true, 0⟩ := by
  simp +decide [evalTech, batchPredictOne, techAssignments, gC_t_id, gC_ca,
    workloadCheck, relaxChain, relaxL3, relaxL4, relaxL5, relaxL6,
    gC_m_dist, gC_m_success, gC_m_dur, gC_d_skill, gC_t_skill, gC_t_cap, gC_d_prio,
    gC_d_dur, gC_t_name]
  norm_num

theorem gC_fa : finishAssign gC_m [] gC_d
    [(⟨"T2", 0, 1, 480, 1020, 10⟩ : CalendarEntry)] 30 0 [gC_t] =
    some ⟨1, "T2", 540, 600, 3/10, 60, 0, 1, "Normal", 65, []⟩ := by
  simp +decide [finishAssign, gC_ev, scoreOptions, calculate_score, maxQ, pickBest,
    optKeyGT, gC_d_id, gC_d_start, gC_d_end, gC_d_prio]
  norm_num

theorem gC_eval : assign_dispatch gC_m [gC_t] gC_cal [] gC_d =
    some ⟨1, "T2", 540, 600, 3/10, 60, 0, 1, "Normal", 65, []⟩ := by
  simp +decide [assign_dispatch, assignDispatchAux, preFilter, candidatePool,
    availableCalCity, availableCalState, city_filtered, state_filtered, gC_cal, gC_fa,
    gC_t_state, gC_d_state, gC_t_city, gC_d_city, gC_t_id, dateOf, gC_d_start]

/-- Claim C8 (amended): one reassignment step keeps the rerun assignment
exactly on a STRICT improvement `new.score > current.score + 5` (the
claimed threshold `new.score ≥ current.score + 5` is off by the boundary
case): on a strict improvement the table becomes the filtered table plus
the new assignment and the improvement counter increments; otherwise —
including the boundary `new.score = current.score + 5` and a failed rerun
— the original assignment is restored, the table is unchanged up to
permutation, and the counter does not move. -/
theorem C8_reassignment_strict_improvement
    (m : Models) (techs : List Technician) (calendar : List CalendarEntry)
    (dispatches : List Dispatch) (st : List Assignment) (imp : Nat)
    (did : Nat) (cur : Assignment) (d : Dispatch)
    (hfind : st.find? (fun a => a.dispatch_id == did) = some cur)
    (hfilter : st.filter (fun a => a.dispatch_id == did) = [cur])
    (hdisp : dispatches.find? (fun x => x.dispatch_id == did) = some d) :
    (∃ nw, assign_dispatch m techs calendar
        (st.filter fun a => !(a.dispatch_id == did)) d = some nw ∧
      nw.score > cur.score + 5 ∧
      reassignStep m techs calendar dispatches (st, imp) did =
        ((st.filter fun a => !(a.dispatch_id == did)) ++ [nw], imp + 1)) ∨
    ((reassignStep m techs calendar dispatches (st, imp) did).2 = imp ∧
      (reassignStep m techs calendar dispatches (st, imp) did).1.Perm st ∧
      ∀ nw, assign_dispatch m techs calendar
          (st.filter fun a => !(a.dispatch_id == did)) d = some nw →
        ¬ nw.score > cur.score + 5) := by
  rcases heq : assign_dispatch m techs calendar
      (st.filter fun a => !(a.dispatch_id == did)) d with _ | nw
  · right
    have hre : reassignStep m techs calendar dispatches (st, imp) did =
        ((st.filter fun a => !(a.dispatch_id == did)) ++ [cur], imp) := by
      simp only [reassignStep, hfind, hdisp, heq]
    rw [hre]
    refine ⟨rfl, filter_restore_perm st did cur hfilter, fun nw hnw => ?_⟩
    exact absurd hnw (by simp)
  · by_cases hs : nw.score > cur.score + 5
    · left
      refine ⟨nw, rfl, hs, ?_⟩
      simp only [reassignStep, hfind, hdisp, heq, if_pos hs]
    · right
      have hre : reassignStep m techs calendar dispatches (st, imp) did =
          ((st.filter fun a => !(a.dispatch_id == did)) ++ [cur], imp) := by
        simp only [reassignStep, hfind, hdisp, heq, if_neg hs]
      rw [hre]
      refine ⟨rfl, filter_restore_perm st did cur hfilter, fun nw' hnw' => ?_⟩
      have hnn : nw = nw' := by injection hnw'
      rw [← hnn]
      exact hs

theorem gC_cur_id : gC_cur.dispatch_id = 1 := rfl
theorem gC_cur_warn : gC_cur.warnings = [] := rfl

/-- Claim C8, counterexample to the claimed keep-threshold "new.score ≥
old.score + 5": in the gC scenario the level-0 rerun scores exactly
current.score + 5 (65 against 60), yet `try_reassignments` counts no
improvement and restores the original assignment. -/
theorem C8_reassignment_threshold_counterexample :
    (assign_dispatch gC_m [gC_t] gC_cal [] gC_d).map Assignment.score
      = some (gC_cur.score + 5) ∧
    try_reassignments gC_m [gC_t] gC_cal [gC_d] [gC_cur] [] = ([gC_cur], 0) := by
  constructor
  · rw [gC_eval]
    simp [gC_cur_score]
    norm_num
  · have hpid : problemIds [gC_cur] = [1] := by
      simp [problemIds, gC_cur_warn, gC_cur_score, gC_cur_id,
        decide_eq_true (show ((60:ℚ) < 70) by norm_num)]
    have hfind : [gC_cur].find? (fun a => a.dispatch_id == (1:Nat)) = some gC_cur := rfl
    have hdisp : [gC_d].find? (fun x => x.dispatch_id == (1:Nat)) = some gC_d := rfl
    have hflt : [gC_cur].filter (fun a => !(a.dispatch_id == (1:Nat))) = [] := rfl
    have h1 : reassignStep gC_m [gC_t] gC_cal [gC_d] ([gC_cur], 0) 1 = ([gC_cur], 0) := by
      simp only [reassignStep, hfind, hdisp, hflt, gC_eval, gC_cur_score]
      norm_num
    simp only [try_reassignments, hpid, List.append_nil, List.foldl_cons, List.foldl_nil]
    exact h1

/-- Witness for the amended C8: in the gC boundary scenario the
reassignment step counts no improvement and leaves the table a
permutation of the original. -/
theorem C8_reassignment_strict_improvement_witness :
    (reassignStep gC_m [gC_t] gC_cal [gC_d] ([gC_cur], 0) 1).2 = 0 ∧
    (reassignStep gC_m [gC_t] gC_cal [gC_d] ([gC_cur], 0) 1).1.Perm [gC_cur] := by
  rcases C8_reassignment_strict_improvement gC_m [gC_t] gC_cal [gC_d] [gC_cur] 0 1
      gC_cur gC_d rfl rfl rfl with ⟨nw, hnw, hgt, _⟩ | ⟨h2, hperm, _⟩
  · rw [show ([gC_cur].filter fun a => !(a.dispatch_id == (1:Nat))) = [] from rfl,
      gC_eval] at hnw
    have hnn : (⟨1, "T2", 540, 600, 3/10, 60, 0, 1, "Normal", 65, []⟩ : Assignment) = nw := by
      injection hnw
    rw [← hnn, gC_cur_score] at hgt
    norm_num at hgt
  · exact ⟨h2, hperm⟩

/-- Models of the gB over-capacity scenario: zero distance, success 0.5,
predicted duration equal to the expected duration. -/
def gB_m : Models := ⟨fun _ _ => 0, fun _ _ _ _ => 1/2, fun d _ _ _ => d.expected_duration⟩

/-- Technician of the gB scenario: capacity 1 (one dispatch fills it). -/
def gB_t : Technician := ⟨"T1", "N", "F", 1, "S", some ("C")⟩

/-- Calendar of the gB scenario: T1 available on day 0, shift 8:00-17:00. -/
def gB_cal : List CalendarEntry := [⟨"T1", 0, 1, 480, 1020, 10⟩]

/-- First dispatch of the gB scenario (9:00-10:00). -/
def gB_d1 : Dispatch := ⟨1, "t", "o", "Normal", "F", 540, 600, 60, "S", some ("C")⟩

/-- Second dispatch of the gB scenario (11:40-12:40, no time conflict). -/
def gB_d2 : Dispatch := ⟨2, "t", "o", "Normal", "F", 700, 760, 60, "S", some ("C")⟩

theorem gB_m_dist (d : Dispatch) (t : Technician) : gB_m.dist d t = 0 := rfl
theorem gB_m_success (d : Dispatch) (t : Technician) (x y : ℚ) :
    gB_m.success d t x y = 1/2 := rfl
theorem gB_m_dur (d : Dispatch) (t : Technician) (x y : ℚ) :
    gB_m.dur d t x y = d.expected_duration := rfl
theorem gB_t_id : gB_t.technician_id = "T1" := rfl
theorem gB_t_name : gB_t.technician_name = "N" := rfl
theorem gB_t_skill : gB_t.technician_skill = "F" := rfl
theorem gB_t_cap : gB_t.workload_capacity = 1 := rfl
theorem gB_t_state : gB_t.state = "S" := rfl
theorem gB_t_city : gB_t.city = some ("C") := rfl
theorem gB_d1_id : gB_d1.dispatch_id = 1 := rfl
theorem gB_d1_prio : gB_d1.priority = "Normal" := rfl
theorem gB_d1_skill : gB_d1.required_skill = "F" := rfl
theorem gB_d1_start : gB_d1.startMin = 540 := rfl
theorem gB_d1_end : gB_d1.endMin = 600 := rfl
theorem gB_d1_dur : gB_d1.expected_duration = 60 := rfl
theorem gB_d1_state : gB_d1.state = "S" := rfl
theorem gB_d1_city : gB_d1.city = some ("C") := rfl
theorem gB_d2_id : gB_d2.dispatch_id = 2 := rfl
theorem gB_d2_prio : gB_d2.priority = "Normal" := rfl
theorem gB_d2_skill : gB_d2.required_skill = "F" := rfl
theorem gB_d2_start : gB_d2.startMin = 700 := rfl
theorem gB_d2_end : gB_d2.endMin = 760 := rfl
theorem gB_d2_dur : gB_d2.expected_duration = 60 := rfl
theorem gB_d2_state : gB_d2.state = "S" := rfl
theorem gB_d2_city : gB_d2.city = some ("C") := rfl

theorem gB_ca1 : check_availability [] gB_d1 "T1"
    [(⟨"T1", 0, 1, 480, 1020, 10⟩ : CalendarEntry)] 30 =
    (true, [], some ⟨"T1", 0, 1, 480, 1020, 10⟩, true) := by
  simp +decide [check_availability, dateOf, timeOf, techAssignments, gB_d1_start, gB_d1_end]

theorem gB_ev1 : evalTech gB_m [] gB_d1 [(⟨"T1", 0, 1, 480, 1020, 10⟩ : CalendarEntry)]
    30 0 gB_t = some ⟨"T1", "N", 1/2, 60, 0, 1, 1, 0, [], true, 0⟩ := by
  simp +decide [evalTech, batchPredictOne, techAssignments, gB_t_id, gB_ca1,
    workloadCheck, relaxChain, relaxL3, relaxL4, relaxL5, relaxL6,
    gB_m_dist, gB_m_success, gB_m_dur, gB_d1_skill, gB_t_skill, gB_t_cap, gB_d1_prio,
    gB_d1_dur, gB_t_name]
  norm_num

theorem gB_fa1 : finishAssign gB_m [] gB_d1
    [(⟨"T1", 0, 1, 480, 1020, 10⟩ : CalendarEntry)] 30 0 [gB_t] =
    some ⟨1, "T1", 540, 600, 1/2, 60, 0, 1, "Normal", 40, []⟩ := by
  simp +decide [finishAssign, gB_ev1, scoreOptions, calculate_score, maxQ, pickBest,
    optKeyGT, gB_d1_id, gB_d1_start, gB_d1_end, gB_d1_prio]
  norm_num

theorem gB_eval1 : assign_dispatch gB_m [gB_t] gB_cal [] gB_d1 =
    some ⟨1, "T1", 540, 600, 1/2, 60, 0, 1, "Normal", 40, []⟩ := by
  simp +decide [assign_dispatch, assignDispatchAux, preFilter, candidatePool,
    availableCalCity, availableCalState, city_filtered, state_filtered, gB_cal, gB_fa1,
    gB_t_state, gB_d1_state, gB_t_city, gB_d1_city, gB_t_id, dateOf, gB_d1_start]

theorem gB_ca2 (buf : Int) : check_availability
    [(⟨1, "T1", 540, 600, 1/2, 60, 0, 1, "Normal", 40, []⟩ : Assignment)] gB_d2 "T1"
    [(⟨"T1", 0, 1, 480, 1020, 10⟩ : CalendarEntry)] buf =
    (true, [], some ⟨"T1", 0, 1, 480, 1020, 10⟩, true) := by
  simp +decide [check_availability, dateOf, timeOf, techAssignments,
    Assignment.overlaps_with, gB_d2_start, gB_d2_end]

theorem gB_ev2none (buf : Int) (lvl : Nat) (hlt : lvl < 6) :
    evalTech gB_m [(⟨1, "T1", 540, 600, 1/2, 60, 0, 1, "Normal", 40, []⟩ : Assignment)]
      gB_d2 [(⟨"T1", 0, 1, 480, 1020, 10⟩ : CalendarEntry)] buf lvl gB_t = none := by
  interval_cases lvl <;>
  · simp only [evalTech, gB_t_id, gB_ca2]
    simp +decide [batchPredictOne, techAssignments, gB_t_id,
      workloadCheck, relaxChain, relaxL3, relaxL4, relaxL5, relaxL6,
      W.hasConcurrentApptsText, W.hasAfterShiftText, W.has110pctText,
      gB_m_dist, gB_m_success, gB_m_dur, gB_d2_skill, gB_t_skill, gB_t_cap, gB_d2_prio,
      gB_d2_dur, gB_t_name]
    try norm_num

theorem gB_ev2six : evalTech gB_m
    [(⟨1, "T1", 540, 600, 1/2, 60, 0, 1, "Normal", 40, []⟩ : Assignment)]
    gB_d2 [(⟨"T1", 0, 1, 480, 1020, 10⟩ : CalendarEntry)] 0 6 gB_t =
    some ⟨"T1", "N", 1/2, 60, 0, 1, 2, 0,
      [W.workloadExceed100LowNormal, W.fbForced], false, 0⟩ := by
  simp only [evalTech, gB_t_id, gB_ca2]
  simp +decide [batchPredictOne, techAssignments, gB_t_id,
    workloadCheck, relaxChain, relaxL3, relaxL4, relaxL5, relaxL6,
    W.hasConcurrentApptsText, W.hasAfterShiftText, W.has110pctText,
    gB_m_dist, gB_m_success, gB_m_dur, gB_d2_skill, gB_t_skill, gB_t_cap, gB_d2_prio,
    gB_d2_dur, gB_t_name]
  try norm_num
  try decide


theorem gB_fa2none (buf : Int) (lvl : Nat) (hlt : lvl < 6) :
    finishAssign gB_m [(⟨1, "T1", 540, 600, 1/2, 60, 0, 1, "Normal", 40, []⟩ : Assignment)]
      gB_d2 [(⟨"T1", 0, 1, 480, 1020, 10⟩ : CalendarEntry)] buf lvl [gB_t] = none := by
  have hopts : List.filterMap
      (evalTech gB_m [(⟨1, "T1", 540, 600, 1/2, 60, 0, 1, "Normal", 40, []⟩ : Assignment)]
        gB_d2 [(⟨"T1", 0, 1, 480, 1020, 10⟩ : CalendarEntry)] buf lvl) [gB_t] = [] := by
    simp only [List.filterMap_cons, List.filterMap_nil, gB_ev2none buf lvl hlt]
  simp only [finishAssign, hopts]
  simp [scoreOptions]

theorem gB_fa2six : finishAssign gB_m
    [(⟨1, "T1", 540, 600, 1/2, 60, 0, 1, "Normal", 40, []⟩ : Assignment)]
    gB_d2 [(⟨"T1", 0, 1, 480, 1020, 10⟩ : CalendarEntry)] 0 6 [gB_t] =
    some ⟨2, "T1", 700, 760, 1/2, 60, 0, 1, "Normal", -10,
      [W.workloadExceed100LowNormal, W.fbForced]⟩ := by
  have hopts : List.filterMap
      (evalTech gB_m [(⟨1, "T1", 540, 600, 1/2, 60, 0, 1, "Normal", 40, []⟩ : Assignment)]
        gB_d2 [(⟨"T1", 0, 1, 480, 1020, 10⟩ : CalendarEntry)] 0 6) [gB_t] =
      [⟨"T1", "N", 1/2, 60, 0, 1, 2, 0,
        [W.workloadExceed100LowNormal, W.fbForced], false, 0⟩] := by
    simp only [List.filterMap_cons, List.filterMap_nil, gB_ev2six]
  simp only [finishAssign, hopts]
  simp +decide [scoreOptions, calculate_score, maxQ, pickBest, optKeyGT,
    gB_d2_id, gB_d2_start, gB_d2_end, gB_d2_prio]
  norm_num

theorem gB_pf (lvl : Nat) : preFilter [gB_t]
    [(⟨"T1", 0, 1, 480, 1020, 10⟩ : CalendarEntry)] gB_d2 lvl = .proceed [gB_t] := by
  simp +decide [preFilter, candidatePool, availableCalCity, availableCalState,
    city_filtered, state_filtered, gB_t_state, gB_d2_state, gB_t_city,
    gB_d2_city, gB_t_id, dateOf, gB_d2_start]

theorem gB_eval2 : assign_dispatch gB_m [gB_t] gB_cal
    [(⟨1, "T1", 540, 600, 1/2, 60, 0, 1, "Normal", 40, []⟩ : Assignment)] gB_d2 =
    some ⟨2, "T1", 700, 760, 1/2, 60, 0, 1, "Normal", -10,
      [W.workloadExceed100LowNormal, W.fbForced]⟩ := by
  have hstep : ∀ (fuel lvl : Nat), lvl < 6 →
      assignDispatchAux gB_m [gB_t] gB_cal
        [(⟨1, "T1", 540, 600, 1/2, 60, 0, 1, "Normal", 40, []⟩ : Assignment)] gB_d2
        (fuel + 1) lvl =
      assignDispatchAux gB_m [gB_t] gB_cal
        [(⟨1, "T1", 540, 600, 1/2, 60, 0, 1, "Normal", 40, []⟩ : Assignment)] gB_d2
        fuel (lvl + 1) := by
    intro fuel lvl h
    simp only [assignDispatchAux, gB_pf lvl, gB_cal]
    rw [gB_fa2none _ lvl h]
    simp [h]
  have h6 : assignDispatchAux gB_m [gB_t] gB_cal
      [(⟨1, "T1", 540, 600, 1/2, 60, 0, 1, "Normal", 40, []⟩ : Assignment)] gB_d2 1 6 =
      some ⟨2, "T1", 700, 760, 1/2, 60, 0, 1, "Normal", -10,
        [W.workloadExceed100LowNormal, W.fbForced]⟩ := by
    simp only [assignDispatchAux, gB_pf 6, gB_cal]
    have hb : (if (6 : Nat) == 0 then (30 : Int) else if (6 : Nat) == 1 then 15 else 0)
        = 0 := rfl
    rw [hb, gB_fa2six]
  show assignDispatchAux gB_m [gB_t] gB_cal
      [(⟨1, "T1", 540, 600, 1/2, 60, 0, 1, "Normal", 40, []⟩ : Assignment)] gB_d2 7 0 =
    some ⟨2, "T1", 700, 760, 1/2, 60, 0, 1, "Normal", -10,
      [W.workloadExceed100LowNormal, W.fbForced]⟩
  rw [hstep 6 0 (by norm_num), hstep 5 1 (by norm_num), hstep 4 2 (by norm_num),
    hstep 3 3 (by norm_num), hstep 2 4 (by norm_num), hstep 1 5 (by norm_num), h6]

theorem gB_sort : sortStable dispatchSortLE [gB_d1, gB_d2] = [gB_d1, gB_d2] := by
  simp +decide [sortStable, insertStable, dispatchSortLE, PRIORITY_ORDER,
    gB_d1_prio, gB_d2_prio, gB_d1_start, gB_d2_start]

theorem gB_run : run_optimization gB_m [gB_t] gB_cal [gB_d1, gB_d2] =
    [⟨1, "T1", 540, 600, 1/2, 60, 0, 1, "Normal", 40, []⟩,
     ⟨2, "T1", 700, 760, 1/2, 60, 0, 1, "Normal", -10,
       [W.workloadExceed100LowNormal, W.fbForced]⟩] := by
  simp only [run_optimization, gB_sort, List.foldl_cons, List.foldl_nil, gB_eval1]
  simp only [List.nil_append]
  simp only [gB_eval2]
  rfl

/-- Claim C3, counterexample: in the gB scenario (capacity 1, two Normal
dispatches, one technician) the full greedy run leaves T1 with 2
assignments — more than 1.20 × capacity = 1.2 — so the claimed final cap
does not hold unconditionally. -/
theorem C3_capacity_cap_counterexample :
    ((techAssignments (run_optimization gB_m [gB_t] gB_cal [gB_d1, gB_d2])
        gB_t.technician_id).length : ℚ) > 6/5 * gB_t.workload_capacity := by
  rw [gB_run]
  simp +decide [techAssignments, gB_t_id, gB_t_cap]
  norm_num

/-- Claim C3 (amended): the 120% workload cap can be exceeded by the
greedy run, but only by a technician holding at least one assignment that
carries a fallback-relaxation marker (concurrent / overtime / forced —
all produced at fallback level ≥ 3); whenever a technician of the table
(positive capacity, distinct technician ids) ends above 1.2 × capacity,
one of their assignments carries such a marker. -/
theorem C3_overcapacity_has_fallback_marker
    (m : Models) (techs : List Technician) (calendar : List CalendarEntry)
    (dispatches : List Dispatch)
    (hnd : (techs.map fun t => t.technician_id).Nodup)
    (t : Technician) (ht : t ∈ techs) (hcap : 0 < t.workload_capacity)
    (hover : ((techAssignments (run_optimization m techs calendar dispatches)
        t.technician_id).length : ℚ) > 6/5 * t.workload_capacity) :
    ∃ a ∈ techAssignments (run_optimization m techs calendar dispatches)
        t.technician_id,
      ∃ w ∈ a.warnings, w = W.fbConcurrent ∨ w = W.fbOvertime ∨ w = W.fbForced := by
  have key : ∀ (l : List Dispatch) (st : List Assignment),
      ((((techAssignments st t.technician_id).length : ℚ)
          / t.workload_capacity ≤ 6/5) ∨
        ∃ a ∈ techAssignments st t.technician_id,
          ∃ w ∈ a.warnings, w = W.fbConcurrent ∨ w = W.fbOvertime ∨ w = W.fbForced) →
      ((((techAssignments (l.foldl (fun st dispatch =>
            match assign_dispatch m techs calendar st dispatch with
            | some a => st ++ [a]
            | none => st) st) t.technician_id).length : ℚ)
          / t.workload_capacity ≤ 6/5) ∨
        ∃ a ∈ techAssignments (l.foldl (fun st dispatch =>
            match assign_dispatch m techs calendar st dispatch with
            | some a => st ++ [a]
            | none => st) st) t.technician_id,
          ∃ w ∈ a.warnings, w = W.fbConcurrent ∨ w = W.fbOvertime ∨ w = W.fbForced) := by
    refine foldl_invariant _ _ ?_
    intro st d hP
    rcases heq : assign_dispatch m techs calendar st d with _ | a
    · exact hP
    · show (((techAssignments (st ++ [a]) t.technician_id).length : ℚ)
          / t.workload_capacity ≤ 6/5) ∨
        ∃ x ∈ techAssignments (st ++ [a]) t.technician_id,
          ∃ w ∈ x.warnings, w = W.fbConcurrent ∨ w = W.fbOvertime ∨ w = W.fbForced
      by_cases hid : a.technician_id = t.technician_id
      · have hsingle : techAssignments [a] t.technician_id = [a] := by
          simp [techAssignments, hid]
        by_cases hle : (((techAssignments st t.technician_id).length : ℚ) + 1)
            / t.workload_capacity ≤ 6/5
        · left
          rw [techAssignments_append, hsingle, List.length_append]
          push_cast
          exact hle
        · right
          have heq' : assignDispatchAux m techs calendar st d 7 0 = some a := heq
          rcases (assignDispatchAux_props m techs calendar st d 7 0 a heq').2 with
            ⟨t', ht', hid', hmark⟩
          have htt : t' = t :=
            technician_id_inj techs hnd t' t ht' ht (by rw [hid', hid])
          rw [htt, hid] at hmark
          refine ⟨a, ?_, hmark hle⟩
          rw [techAssignments_append, hsingle]
          simp
      · have hnone : techAssignments [a] t.technician_id = [] := by
          simp [techAssignments, hid]
        rw [techAssignments_append, hnone, List.append_nil]
        exact hP
  have hbase : (((techAssignments ([] : List Assignment) t.technician_id).length : ℚ)
        / t.workload_capacity ≤ 6/5) ∨
      ∃ a ∈ techAssignments ([] : List Assignment) t.technician_id,
        ∃ w ∈ a.warnings, w = W.fbConcurrent ∨ w = W.fbOvertime ∨ w = W.fbForced := by
    left
    simp [techAssignments]
    norm_num
  rcases key (sortStable dispatchSortLE dispatches) [] hbase with hle | hmark
  · exfalso
    rw [div_le_iff₀ hcap] at hle
    rw [run_optimization] at hover
    exact absurd hover (not_lt.mpr (by linarith))
  · rw [run_optimization]
    exact hmark

/-- Witness for the amended C3: in the gB scenario T1 ends with 2
assignments against capacity 1 (over the 120% cap) and indeed holds an
assignment carrying the forced-fallback marker. -/
theorem C3_overcapacity_has_fallback_marker_witness :
    ∃ a ∈ techAssignments (run_optimization gB_m [gB_t] gB_cal [gB_d1, gB_d2])
        gB_t.technician_id,
      ∃ w ∈ a.warnings, w = W.fbConcurrent ∨ w = W.fbOvertime ∨ w = W.fbForced :=
  C3_overcapacity_has_fallback_marker gB_m [gB_t] gB_cal [gB_d1, gB_d2]
    (by decide) gB_t (by simp)
    (by rw [gB_t_cap]; norm_num)
    (by rw [gB_run]; simp +decide [techAssignments, gB_t_id, gB_t_cap]; norm_num)
